import Mathlib

/-!
Verification of the ABI-Agent repository (src/tools.py, src/agents/*.py)
against its natural-language specification.

Every definition below is a shallow embedding translated from the Python
source. Python strings are modelled as `List Char` (`Str`); Python
functions that can raise are modelled with `Except Exc`; the external
language model and the `exec` of generated code are modelled as oracles
(an environment value per attempt gives the outcome of the model call and
of the execution, since those are outside the control of the program).
-/

/-- Python strings are modelled as lists of characters. -/
abbrev Str := List Char

/-- Python `str.strip()` whitespace set (ASCII portion). -/
def isPyWs (c : Char) : Bool :=
  c == ' ' || c == '\t' || c == '\n' || c == '\r' || c == '\x0b' || c == '\x0c'

/-- Python `str.strip()`: drop leading and trailing whitespace. -/
def pyStripL (t : Str) : Str :=
  ((t.dropWhile isPyWs).reverse.dropWhile isPyWs).reverse

/-- Split a string on newline characters, as Python `text.split('\n')`. -/
def splitLines : Str → List Str
  | [] => [[]]
  | '\n' :: t => [] :: splitLines t
  | c :: t =>
    match splitLines t with
    | [] => [[c]]
    | l :: ls => (c :: l) :: ls

/-- Inverse of `splitLines`: join lines with newline characters. -/
def joinLines : List Str → Str
  | [] => []
  | [l] => l
  | l :: ls => l ++ '\n' :: joinLines ls

/-- A line consisting solely of (at least one) space/tab characters, as
matched by the whitespace-only-line regex of `textwrap.dedent`. -/
def isWsOnlyLine (l : Str) : Bool :=
  decide (l ≠ []) && l.all (fun c => c == ' ' || c == '\t')

/-- Leading space/tab prefix of a line. -/
def leadingWs (l : Str) : Str :=
  l.takeWhile (fun c => c == ' ' || c == '\t')

/-- Longest common prefix of two character lists. -/
def lcp : Str → Str → Str
  | a :: as, b :: bs => if a = b then a :: lcp as bs else []
  | _, _ => []

/-- Common leading-whitespace margin of the (already normalized) lines,
`none` when no line has any content (mirrors the margin computation
of `textwrap.dedent`, whose pairwise update is exactly a longest-common-prefix). -/
def dedentMargin (lines : List Str) : Option Str :=
  match lines.filter (fun l => decide (l ≠ [])) with
  | [] => none
  | h :: t => some (t.foldl (fun m l => lcp m (leadingWs l)) (leadingWs h))

/-- Remove the margin from a line when the line starts with it (mirrors the
per-line `^margin` substitution in `textwrap.dedent`). -/
def dropMargin (m : Str) (l : Str) : Str :=
  if List.isPrefixOf m l then l.drop m.length else l

/-- Python `textwrap.dedent`: blank out whitespace-only lines, then strip
the common leading whitespace margin from every line. -/
def pyDedentL (t : Str) : Str :=
  let lines := (splitLines t).map (fun l => if isWsOnlyLine l then [] else l)
  match dedentMargin lines with
  | none => joinLines lines
  | some m => if m = [] then joinLines lines else joinLines (lines.map (dropMargin m))

/-- Decimal rendering of a natural number (for f-string interpolation). -/
def natStr (n : Nat) : Str := (Nat.repr n).data

/-- Find the first occurrence of `pat` in a string; return the text before
the occurrence and the text after it. -/
def splitAtSub? (pat : Str) : Str → Option (Str × Str)
  | [] => if pat = [] then some ([], []) else none
  | c :: rest =>
    if List.isPrefixOf pat (c :: rest) then some ([], (c :: rest).drop pat.length)
    else
      match splitAtSub? pat rest with
      | none => none
      | some (a, b) => some (c :: a, b)

/-- The opening marker `<tag>`. -/
def openTagOf (tag : Str) : Str := ('<' :: tag) ++ ['>']

/-- The closing marker `</tag>`. -/
def closeTagOf (tag : Str) : Str := ('<' :: '/' :: tag) ++ ['>']

/-- Model of the regex search `<{tag}>(.*?)</{tag}>` with `re.DOTALL`
(first opening marker, then the first closing marker after it), returning
the stripped group when a match exists. Used by `_extract_tag` in
src/tools.py and by the `<plan>` search in src/agents/planner.py. -/
def extractTagOpt (text tag : Str) : Option Str :=
  match splitAtSub? (openTagOf tag) text with
  | none => none
  | some (_, rest) =>
    match splitAtSub? (closeTagOf tag) rest with
    | none => none
    | some (content, _) => some (pyStripL content)

/-- Model of `_extract_tag` (src/tools.py lines 26-32): empty string when
the tags are absent, the stripped content otherwise. -/
def extractTag (text tag : Str) : Str :=
  (extractTagOpt text tag).getD []

/-- Model of `_get_schema_info` (src/tools.py lines 35-39). -/
def getSchemaInfo (schema : List (Str × Str)) : Str :=
  "Dataset columns:\n".data ++
    List.intercalate ("\n".data)
      (schema.map (fun cd => "  - ".data ++ cd.1 ++ ": ".data ++ cd.2))

/-- A Python runtime value observed in the execution namespace: its type
name and the type tests the tools perform on it. -/
structure PyVal where
  typeName : Str
  isPolarsDataFrame : Bool
  isPlotlyFigure : Bool
deriving DecidableEq

/-- A raised Python exception: `type(exc).__name__` and `str(exc)`. -/
structure Exc where
  kind : Str
  msg : Str
deriving DecidableEq

/-- Outcome of one `llm.invoke` call: the call raises, or returns a
response whose content is the given text. -/
inductive ModelResp where
  | raises (kind msg : Str)
  | returns (text : Str)
deriving DecidableEq

/-- Outcome of `exec(code, namespace)`: the execution raises, or completes
leaving the designated output variable bound to `v` (`none` when the code
never bound it, so `namespace.get(...)` yields Python `None`). -/
inductive ExecOutcome where
  | raises (kind msg : Str)
  | binds (v : Option PyVal)
deriving DecidableEq

/-- Environment of one retry-loop attempt: what the model call and the
code execution would do on this attempt, plus what
`traceback.format_exc()` renders in the `except` block of the attempt. -/
structure AttemptEnv where
  resp : ModelResp
  execOut : ExecOutcome
  tb : Str
deriving DecidableEq

/-- Model of `PolarsAnalyst._run_code` (src/tools.py lines 212-240) after
the `exec` call is abstracted by its outcome: a missing `result` variable
or a non-DataFrame `result` raises a `ValueError` naming the observed
type; otherwise the DataFrame is returned. -/
def runCodeModel (execOut : ExecOutcome) : Except Exc PyVal :=
  match execOut with
  | .raises kind msg => Except.error ⟨kind, msg⟩
  | .binds none =>
    Except.error ⟨"ValueError".data,
      "Code did not define a `result` variable. Make sure your code ends with: result = lf.[...].collect()".data⟩
  | .binds (some v) =>
    if v.isPolarsDataFrame then Except.ok v
    else
      Except.error ⟨"ValueError".data,
        "`result` must be a polars.DataFrame, got ".data ++ v.typeName ++
          ". Did you forget .collect() at the end?".data⟩

/-- The f-string inside `textwrap.dedent` in `PolarsAnalyst._build_prompt`
(src/tools.py lines 182-192), with the exact indentation of the source file. -/
def basePromptText (question schemaInfo : Str) : Str :=
  "\n            ".data ++ schemaInfo ++
  "\n\n            Question: ".data ++ question ++
  "\n\n            Write Polars code to answer this question.\n            Remember:\n            - Input is `lf` (LazyFrame). Do not redefine it.\n            - End with: result = lf.[...].collect()\n            - result must be a polars.DataFrame\n        ".data

/-- The f-string inside `textwrap.dedent` for the error-feedback prompt in
`PolarsAnalyst._build_prompt` (src/tools.py lines 198-210). -/
def errsPromptText (base errors : Str) : Str :=
  "\n            ".data ++ base ++
  "\n\n            YOUR PREVIOUS CODE FAILED. Study these errors and fix them:\n\n            ".data ++
  errors ++
  "\n\n            Write corrected code now. Pay attention to:\n            - group_by() not groupby()\n            - .alias() for renaming columns\n            - .collect() at the end\n            - Correct column names from the schema above\n        ".data

/-- Model of `PolarsAnalyst._build_prompt` (src/tools.py lines 175-210). -/
def buildPrompt (question schemaInfo : Str) (errorHistory : List Str) : Str :=
  let base := pyStripL (pyDedentL (basePromptText question schemaInfo))
  if errorHistory = [] then base
  else
    let errors := List.intercalate ("\n\n---\n".data) errorHistory
    pyStripL (pyDedentL (errsPromptText base errors))

/-- The error-history entry captured by the `except` block of
`PolarsAnalyst.analyze` (src/tools.py lines 148-153). -/
def mkErrorMsg (attempt : Nat) (kind msg tb : Str) : Str :=
  "Attempt ".data ++ natStr attempt ++ " failed.\nError type: ".data ++ kind ++
  "\nError message: ".data ++ msg ++ "\nTraceback:\n".data ++ tb

/-- The body of one `PolarsAnalyst.analyze` attempt after the prompt is
built (src/tools.py lines 117-145): invoke the model, extract the `<code>`
block (recording it as `last_code`), raise if it is absent, then run the
code. Returns the extracted code (when the model call returned) and the
attempt outcome. -/
def pAttemptStep (e : AttemptEnv) : Option Str × Except Exc PyVal :=
  match e.resp with
  | .raises kind msg => (none, Except.error ⟨kind, msg⟩)
  | .returns text =>
    let code := extractTag text ("code".data)
    if code = [] then
      (some code, Except.error ⟨"ValueError".data,
        "LLM did not return a <code> block. Raw response: ".data ++ text.take 300⟩)
    else (some code, runCodeModel e.execOut)

/-- The dict returned by `PolarsAnalyst.analyze`. -/
structure AnalyzeResult where
  success : Bool
  result_df : Option PyVal
  generated_code : Str
  error : Option Str
  attempts : Nat
deriving DecidableEq

/-- Instrumentation record for one loop iteration: the attempt number, the
`use_fallback` flag passed to `build_llm`, and the error history and
prompt at the moment the prompt of the attempt is constructed. -/
structure TraceEntry where
  attempt : Nat
  use_fallback : Bool
  history_at_prompt : List Str
  prompt : Str
deriving DecidableEq

/-- The retry loop of `PolarsAnalyst.analyze` (src/tools.py lines
106-173), recursing over the remaining attempt numbers of
`range(1, max_retries + 2)`. Returns the result dict, the instrumentation
trace (one entry per model invocation), and a flag that is true exactly
when the defensive post-loop return (lines 167-173) was taken. -/
def analyzeGo (env : Nat → AttemptEnv) (maxRetries : Nat) (question schemaInfo : Str) :
    List Nat → List Str → Str → AnalyzeResult × List TraceEntry × Bool
  | [], _hist, lastCode =>
    (⟨false, none, lastCode, some ("Unexpected exit from retry loop.".data), maxRetries + 1⟩,
      [], true)
  | attempt :: rest, hist, lastCode =>
    let useFallback := decide (attempt > maxRetries)
    let prompt := buildPrompt question schemaInfo hist
    let tr : TraceEntry := ⟨attempt, useFallback, hist, prompt⟩
    let e := env attempt
    match pAttemptStep e with
    | (codeOpt, Except.ok v) =>
      (⟨true, some v, codeOpt.getD lastCode, none, attempt⟩, [tr], false)
    | (codeOpt, Except.error exc) =>
      let lastCode' := codeOpt.getD lastCode
      let errMsg := mkErrorMsg attempt exc.kind exc.msg e.tb
      let hist' := hist ++ [errMsg]
      if attempt > maxRetries then
        (⟨false, none, lastCode', some exc.msg, attempt⟩, [tr], false)
      else
        let res := analyzeGo env maxRetries question schemaInfo rest hist' lastCode'
        (res.1, tr :: res.2.1, res.2.2)

/-- The loop of `PolarsAnalyst.analyze` started the way the source starts it:
attempts `1 .. maxRetries + 1`, empty error history, empty `last_code`. -/
def analyzeRun (env : Nat → AttemptEnv) (maxRetries : Nat) (question schemaInfo : Str) :
    AnalyzeResult × List TraceEntry × Bool :=
  analyzeGo env maxRetries question schemaInfo (List.range' 1 (maxRetries + 1)) [] []

/-- Model of `PolarsAnalyst.analyze` (src/tools.py lines 90-173); the
instance field `_max_retries` is 3 (line 88). -/
def PolarsAnalyst.analyze (question : Str) (schema : List (Str × Str))
    (env : Nat → AttemptEnv) : AnalyzeResult × List TraceEntry × Bool :=
  analyzeRun env 3 question (getSchemaInfo schema)

/-- The f-string inside `textwrap.dedent` for the viz base prompt
(src/tools.py lines 406-412), with the exact source indentation,
including the trailing space after the backquoted `df`. The column list
and sample-row rendering of the input DataFrame are parameters, since
they are produced by library formatting outside this core. -/
def vizBaseText (colInfo sample question : Str) : Str :=
  "\n            Columns: ".data ++ colInfo ++
  "\n            Sample rows: ".data ++ sample ++
  "\n            Chart request: ".data ++ question ++
  "\n            Write Plotly code. DataFrame is `df`. \n            Assign result to `fig`.\n        ".data

/-- The `base_prompt` of `VizGenerator.generate` (src/tools.py line 406). -/
def vizBasePrompt (colInfo sample question : Str) : Str :=
  pyStripL (pyDedentL (vizBaseText colInfo sample question))

/-- The prompt of one `VizGenerator.generate` attempt (src/tools.py lines
421-425): the base prompt, extended with the joined error history when
there is one. -/
def vizPrompt (basePrompt : Str) (errorHistory : List Str) : Str :=
  if errorHistory = [] then basePrompt
  else
    basePrompt ++ "\n\nFix these errors:\n".data ++
      List.intercalate ("\n\n---\n".data) errorHistory

/-- The error-history entry captured by the `except` block of
`VizGenerator.generate` (src/tools.py lines 466-469). -/
def mkVizErrorMsg (attempt : Nat) (kind msg tb : Str) : Str :=
  "Attempt ".data ++ natStr attempt ++ ": ".data ++ kind ++ ": ".data ++ msg ++
  "\n".data ++ tb

/-- The body of one `VizGenerator.generate` attempt after the prompt is
built (src/tools.py lines 427-463): invoke the model, extract the `<code>`
block, raise if absent, execute, and reject only a missing `fig` binding
(`fig is None`); any other bound value is returned as the figure. -/
def vAttemptStep (e : AttemptEnv) : Option Str × Except Exc PyVal :=
  match e.resp with
  | .raises kind msg => (none, Except.error ⟨kind, msg⟩)
  | .returns text =>
    let code := extractTag text ("code".data)
    if code = [] then
      (some code, Except.error ⟨"ValueError".data, "LLM returned no <code> block.".data⟩)
    else
      match e.execOut with
      | .raises kind msg => (some code, Except.error ⟨kind, msg⟩)
      | .binds none =>
        (some code, Except.error ⟨"ValueError".data, "Code did not define a `fig` variable.".data⟩)
      | .binds (some v) => (some code, Except.ok v)

/-- The dict returned by `VizGenerator.generate`. -/
structure VizResult where
  success : Bool
  figure : Option PyVal
  generated_code : Str
  error : Option Str
  attempts : Nat
deriving DecidableEq

/-- The retry loop of `VizGenerator.generate` (src/tools.py lines
417-488), mirrored exactly like `analyzeGo`; the third component is true
exactly when the defensive post-loop return (lines 482-488) was taken. -/
def vizGo (env : Nat → AttemptEnv) (maxRetries : Nat) (basePrompt : Str) :
    List Nat → List Str → Str → VizResult × List TraceEntry × Bool
  | [], _hist, lastCode =>
    (⟨false, none, lastCode, some ("Unexpected exit.".data), maxRetries + 1⟩, [], true)
  | attempt :: rest, hist, lastCode =>
    let useFallback := decide (attempt > maxRetries)
    let prompt := vizPrompt basePrompt hist
    let tr : TraceEntry := ⟨attempt, useFallback, hist, prompt⟩
    let e := env attempt
    match vAttemptStep e with
    | (codeOpt, Except.ok v) =>
      (⟨true, some v, codeOpt.getD lastCode, none, attempt⟩, [tr], false)
    | (codeOpt, Except.error exc) =>
      let lastCode' := codeOpt.getD lastCode
      let errMsg := mkVizErrorMsg attempt exc.kind exc.msg e.tb
      let hist' := hist ++ [errMsg]
      if attempt > maxRetries then
        (⟨false, none, lastCode', some exc.msg, attempt⟩, [tr], false)
      else
        let res := vizGo env maxRetries basePrompt rest hist' lastCode'
        (res.1, tr :: res.2.1, res.2.2)

/-- The loop of `VizGenerator.generate` started the way the source starts it. -/
def vizRun (env : Nat → AttemptEnv) (maxRetries : Nat) (basePrompt : Str) :
    VizResult × List TraceEntry × Bool :=
  vizGo env maxRetries basePrompt (List.range' 1 (maxRetries + 1)) [] []

/-- Model of `VizGenerator.generate` (src/tools.py lines 384-488); the
instance field `_max_retries` is 3 (line 382). -/
def VizGenerator.generate (question colInfo sample : Str)
    (env : Nat → AttemptEnv) : VizResult × List TraceEntry × Bool :=
  vizRun env 3 (vizBasePrompt colInfo sample question)

/-- The f-string inside `textwrap.dedent` for the SQL user message
(src/tools.py lines 277-285), dedented and stripped. -/
def sqlUserMessage (question schemaInfo : Str) : Str :=
  pyStripL (pyDedentL
    ("\n            ".data ++ schemaInfo ++
     "\n\n            Table name in DuckDB: sc_data\n\n            Question: ".data ++
     question ++
     "\n\n            Write a DuckDB SQL query to answer this.\n        ".data))

/-- Environment of one `SQLGenerator.generate` call: the model call's
outcome, the outcome of `lf.collect()`, and the outcome of
`conn.execute(sql_query).pl()`. -/
structure SqlEnv where
  resp : ModelResp
  collectRes : Except Exc Unit
  execRes : Except Exc PyVal

/-- The dict returned by `SQLGenerator.generate`. -/
structure SqlResult where
  success : Bool
  sql_query : Str
  result_df : Option PyVal
  error : Option Str
deriving DecidableEq

/-- Instrumentation for `SQLGenerator.generate`: how many model calls and
query executions the invocation performed, and the user message built. -/
structure SqlTrace where
  modelCalls : Nat
  queryExecs : Nat
  prompt : Str
deriving DecidableEq

/-- Model of `SQLGenerator.generate` (src/tools.py lines 263-325): a
single model call, extraction of the `<sql>` block (raising when absent),
materialization of the data, a single query execution, and a uniform
`except` that reports `success=False` with the query text gathered so far
and `result_df=None`. -/
def SQLGenerator.generate (question : Str) (schema : List (Str × Str))
    (env : SqlEnv) : SqlResult × SqlTrace :=
  let schemaInfo := getSchemaInfo schema
  let userMessage := sqlUserMessage question schemaInfo
  match env.resp with
  | .raises _kind msg => (⟨false, [], none, some msg⟩, ⟨1, 0, userMessage⟩)
  | .returns text =>
    let sqlQuery := extractTag text ("sql".data)
    if sqlQuery = [] then
      (⟨false, sqlQuery, none, some ("LLM did not return a <sql> block.".data)⟩,
        ⟨1, 0, userMessage⟩)
    else
      match env.collectRes with
      | Except.error exc => (⟨false, sqlQuery, none, some exc.msg⟩, ⟨1, 0, userMessage⟩)
      | Except.ok _ =>
        match env.execRes with
        | Except.error exc => (⟨false, sqlQuery, none, some exc.msg⟩, ⟨1, 1, userMessage⟩)
        | Except.ok df => (⟨true, sqlQuery, some df, none⟩, ⟨1, 1, userMessage⟩)

/-- A Python JSON value as produced by `json.loads` (src/agents/planner.py
line 83). JSON numbers are modelled as integers; no claim depends on
numeric plan values. -/
inductive PyJson where
  | null
  | bool (b : Bool)
  | str (s : Str)
  | num (n : Int)
  | arr (xs : List PyJson)
  | obj (kvs : List (Str × PyJson))

/-- Python truthiness (`if value:`) of a JSON value. -/
def pyTruthy : PyJson → Bool
  | .null => false
  | .bool b => b
  | .str s => decide (s ≠ [])
  | .num n => decide (n ≠ 0)
  | .arr xs => !xs.isEmpty
  | .obj kvs => !kvs.isEmpty

/-- Python `==` between a JSON value and a string literal: true only for an
equal string (a non-string value never equals a string). -/
def jsonEqStr (j : PyJson) (s : Str) : Bool :=
  match j with
  | .str t => decide (t = s)
  | _ => false

/-- Whether a JSON value is an object (a Python dict). -/
def PyJson.isObj : PyJson → Bool
  | .obj _ => true
  | _ => false

/-- First binding of a key in an association list (dict keys are unique,
so first-match lookup models Python dict indexing). -/
def assocGet (kvs : List (Str × PyJson)) (k : Str) : Option PyJson :=
  match kvs with
  | [] => none
  | kv :: rest => if kv.1 = k then some kv.2 else assocGet rest k

/-- Python `value.get(key, default)`: succeeds on a dict, raises
`AttributeError` on any other value; the message is a neutral rendering
of the CPython attribute-error text. -/
def pyDictGet (j : PyJson) (k : Str) (dflt : PyJson) : Except Exc PyJson :=
  match j with
  | .obj kvs => Except.ok ((assocGet kvs k).getD dflt)
  | _ => Except.error ⟨"AttributeError".data, "object has no attribute get".data⟩

/-- Python `str()` of a JSON value, exact for strings (the only case the
pipeline realistically formats); container renderings are abbreviated. -/
def pyStrOf : PyJson → Str
  | .null => "None".data
  | .bool true => "True".data
  | .bool false => "False".data
  | .str s => s
  | .num n => (toString n).data
  | .arr _ => "[...]".data
  | .obj _ => "\x7b...\x7d".data

/-- The fixed default plan substituted by `planner_node` when the model's
plan cannot be parsed (src/agents/planner.py lines 86-94). -/
def defaultPlan (question : Str) : PyJson :=
  .obj [("intent".data, .str ("analysis".data)),
        ("primary_task".data, .str question),
        ("requires_sql".data, .bool false),
        ("requires_viz".data, .bool false),
        ("chart_type".data, .null),
        ("complexity".data, .str ("low".data)),
        ("routing".data, .str ("executor".data))]

/-- The dataset handle held in shared state: its lazily inspectable schema
and the DataFrame `lf.collect()` materializes. Handle operations are
modelled as total (nothing in the claims concerns a corrupt handle). -/
structure LFModel where
  schema : List (Str × Str)
  collected : PyVal

/-- The shared pipeline state (src/agents/state.py). The `messages`
chat-log channel is not modelled: no node reads it and no claim concerns
it. `next_node` is a JSON value because the planner writes
`plan.get("routing", ...)` into it unchecked. -/
structure PState where
  user_question : Str
  raw_dataframe : Option LFModel
  plan : PyJson
  next_node : PyJson
  analysis_result : Option PyVal
  generated_code : Str
  sql_query : Str
  sql_result : Option PyVal
  figure : Option PyVal
  error : Option Str
  retry_count : Nat
  final_answer : Str

/-- A partial state update returned by a node: `none` fields are left
untouched by the orchestrator merge. -/
structure PUpdate where
  plan : Option PyJson := none
  next_node : Option PyJson := none
  analysis_result : Option (Option PyVal) := none
  generated_code : Option Str := none
  sql_query : Option Str := none
  sql_result : Option (Option PyVal) := none
  figure : Option (Option PyVal) := none
  error : Option (Option Str) := none
  final_answer : Option Str := none

/-- Merge a partial update into the state (the LangGraph channel merge for
plain fields). -/
def applyUpdate (st : PState) (u : PUpdate) : PState :=
  { st with
    plan := u.plan.getD st.plan
    next_node := u.next_node.getD st.next_node
    analysis_result := u.analysis_result.getD st.analysis_result
    generated_code := u.generated_code.getD st.generated_code
    sql_query := u.sql_query.getD st.sql_query
    sql_result := u.sql_result.getD st.sql_result
    figure := u.figure.getD st.figure
    error := u.error.getD st.error
    final_answer := u.final_answer.getD st.final_answer }

/-- The text `planner_node` hands to `json.loads` (src/agents/planner.py
lines 79-80): the stripped `<plan>` group when the tag pair is present,
the whole stripped response otherwise. -/
def plannerRawJson (text : Str) : Str :=
  match extractTagOpt text ("plan".data) with
  | some content => content
  | none => pyStripL text

/-- Model of `planner_node` (src/agents/planner.py lines 47-109).
`parseJson` abstracts `json.loads` (`none` = `JSONDecodeError`). The
`llm.invoke` call (line 71) is outside any `try`, so a raising model call
propagates; likewise `plan.get("routing", ...)` on a parsed non-dict
raises `AttributeError`. -/
def plannerNode (parseJson : Str → Option PyJson) :
    ModelResp → PState → Except Exc PUpdate
  | .raises kind msg, _ => Except.error ⟨kind, msg⟩
  | .returns text, st =>
    let rawJson := plannerRawJson text
    let plan :=
      match parseJson rawJson with
      | some p => p
      | none => defaultPlan st.user_question
    match pyDictGet plan ("routing".data) (PyJson.str ("executor".data)) with
    | Except.error e => Except.error e
    | Except.ok routeVal =>
      let nextNode :=
        if jsonEqStr routeVal ("multi".data) then PyJson.str ("executor".data)
        else routeVal
      Except.ok { plan := some plan, next_node := some nextNode }

/-- Model of `_route_after_planner` (src/agents/graph.py lines 24-33). -/
def routeAfterPlanner (st : PState) : Str :=
  match st.next_node with
  | PyJson.str s =>
    if s = "executor".data ∨ s = "sql_node".data ∨ s = "viz_node".data ∨
        s = "responder".data then s
    else ("executor".data)
  | _ => "executor".data

/-- Model of `_route_after_executor` (src/agents/graph.py lines 36-44). -/
def routeAfterExecutor (st : PState) : Str :=
  if jsonEqStr st.next_node ("viz_node".data) then ("viz_node".data)
  else ("responder".data)

/-- Model of `analysis_executor_node` (src/agents/executor.py lines
23-73). On a missing dataset it returns a terminal error without any model
call; on success it reads `plan.get("requires_viz")` (which raises on a
non-dict plan) to pick the next node. -/
def analysisExecutorNode (env : Nat → AttemptEnv) (st : PState) : Except Exc PUpdate :=
  match st.raw_dataframe with
  | none =>
    Except.ok { error := some (some ("No dataset loaded. Please upload a CSV file first.".data)),
                next_node := some (PyJson.str ("responder".data)) }
  | some lf =>
    let result := (PolarsAnalyst.analyze st.user_question lf.schema env).1
    if result.success then
      match pyDictGet st.plan ("requires_viz".data) PyJson.null with
      | Except.error e => Except.error e
      | Except.ok rv =>
        let nextNode := if pyTruthy rv then ("viz_node".data) else ("responder".data)
        Except.ok { analysis_result := some result.result_df,
                    generated_code := some result.generated_code,
                    error := some none,
                    next_node := some (PyJson.str nextNode) }
    else
      Except.ok { error := some result.error,
                  generated_code := some result.generated_code,
                  next_node := some (PyJson.str ("responder".data)) }

/-- Model of `sql_executor_node` (src/agents/executor.py lines 78-118);
this node catches nothing itself but `SQLGenerator.generate` never
raises. -/
def sqlExecutorNode (env : SqlEnv) (st : PState) : PUpdate :=
  match st.raw_dataframe with
  | none =>
    { error := some (some ("No dataset loaded.".data)),
      next_node := some (PyJson.str ("responder".data)) }
  | some lf =>
    let result := (SQLGenerator.generate st.user_question lf.schema env).1
    if result.success then
      { sql_query := some result.sql_query,
        sql_result := some result.result_df,
        error := some none,
        next_node := some (PyJson.str ("responder".data)) }
    else
      { sql_query := some result.sql_query,
        error := some result.error,
        next_node := some (PyJson.str ("responder".data)) }

/-- Environment of `viz_executor_node`: the per-attempt oracles of the viz
retry loop plus the library renderings of the input DataFrame column
list and sample rows (src/tools.py lines 401-404). -/
structure VizNodeEnv where
  attempts : Nat → AttemptEnv
  colInfo : Str
  sample : Str

/-- Model of `viz_executor_node` (src/agents/executor.py lines 123-170):
chart over the analysis result, else over the collected raw dataset, else
a terminal error; `plan.get("chart_type", "")` raises on a non-dict
plan. -/
def vizExecutorNode (env : VizNodeEnv) (st : PState) : Except Exc PUpdate :=
  let df? : Option PyVal :=
    match st.analysis_result with
    | some df => some df
    | none =>
      match st.raw_dataframe with
      | none => none
      | some lf => some lf.collected
  match df? with
  | none =>
    Except.ok { error := some (some ("No data available for visualization.".data)),
                next_node := some (PyJson.str ("responder".data)) }
  | some _df =>
    match pyDictGet st.plan ("chart_type".data) (PyJson.str []) with
    | Except.error e => Except.error e
    | Except.ok chartType =>
      let vizQuestion :=
        if pyTruthy chartType then pyStrOf chartType ++ " chart: ".data ++ st.user_question
        else st.user_question
      let result := (VizGenerator.generate vizQuestion env.colInfo env.sample env.attempts).1
      if result.success then
        Except.ok { figure := some result.figure,
                    error := some none,
                    next_node := some (PyJson.str ("responder".data)) }
      else
        Except.ok { error := some result.error,
                    next_node := some (PyJson.str ("responder".data)) }

/-- Environment of `responder_node`: the outcome of the model call and the
library renderings of the first rows of the analysis and SQL results
(src/agents/executor.py lines 205, 212). -/
structure ResponderEnv where
  resp : ModelResp
  previewAnalysis : Str
  previewSql : Str

/-- The context block `responder_node` assembles (src/agents/executor.py
lines 199-218): question, then error / analysis preview / SQL query / SQL
preview / chart note, each included only when present (Python truthiness
for the error and query strings). -/
def responderContext (st : PState) (env : ResponderEnv) : Str :=
  let parts := ["User Question: ".data ++ st.user_question]
  let parts := parts ++
    (match st.error with
     | some e => if e ≠ [] then ["Error: ".data ++ e] else []
     | none => [])
  let parts := parts ++
    (match st.analysis_result with
     | some _ => ["Analysis Result:\n".data ++ env.previewAnalysis]
     | none => [])
  let parts := parts ++
    (if st.sql_query ≠ [] then ["SQL Query:\n".data ++ st.sql_query] else [])
  let parts := parts ++
    (match st.sql_result with
     | some _ => ["SQL Result:\n".data ++ env.previewSql]
     | none => [])
  let parts := parts ++
    (if st.figure.isSome then ["A chart has been generated and displayed.".data] else [])
  List.intercalate ("\n\n".data) parts

/-- Model of `responder_node` (src/agents/executor.py lines 189-233). The
context of `responderContext` is what the model is invoked on; the
`llm.invoke` call (line 222) is outside any `try`, so a raising model call
propagates. -/
def responderNode (env : ResponderEnv) (st : PState) : Except Exc PUpdate :=
  let _context := responderContext st env
  match env.resp with
  | .raises kind msg => Except.error ⟨kind, msg⟩
  | .returns text =>
    Except.ok { final_answer := some text,
                next_node := some (PyJson.str ("end".data)) }

/-- Environments of every model-facing component for one question. -/
structure PipelineEnv where
  plannerResp : ModelResp
  analysisAttempts : Nat → AttemptEnv
  sql : SqlEnv
  viz : VizNodeEnv
  responder : ResponderEnv

/-- The conditional dispatch after the planner in `build_graph`
(src/agents/graph.py lines 85-108): `_route_after_planner` picks the main
node; the executor branch continues through `_route_after_executor` to an
optional viz stage; SQL and viz go straight on. The returned state is the
one handed to the responder. -/
def runAfterPlanner (env : PipelineEnv) (st1 : PState) : Except Exc PState :=
  if routeAfterPlanner st1 = "executor".data then
    match analysisExecutorNode env.analysisAttempts st1 with
    | Except.error e => Except.error e
    | Except.ok u2 =>
      let st2 := applyUpdate st1 u2
      if routeAfterExecutor st2 = "viz_node".data then
        match vizExecutorNode env.viz st2 with
        | Except.error e => Except.error e
        | Except.ok u3 => Except.ok (applyUpdate st2 u3)
      else Except.ok st2
  else if routeAfterPlanner st1 = "sql_node".data then
    Except.ok (applyUpdate st1 (sqlExecutorNode env.sql st1))
  else if routeAfterPlanner st1 = "viz_node".data then
    match vizExecutorNode env.viz st1 with
    | Except.error e => Except.error e
    | Except.ok u3 => Except.ok (applyUpdate st1 u3)
  else Except.ok st1

/-- Model of the compiled graph of `build_graph` (src/agents/graph.py
lines 47-113): planner, then the conditional dispatch of
`runAfterPlanner`, then the responder — which always runs last when
reached. An `Except.error` is an uncaught Python exception escaping the
pipeline. -/
def runPipeline (parseJson : Str → Option PyJson) (env : PipelineEnv)
    (st0 : PState) : Except Exc PState :=
  match plannerNode parseJson env.plannerResp st0 with
  | Except.error e => Except.error e
  | Except.ok u1 =>
    match runAfterPlanner env (applyUpdate st0 u1) with
    | Except.error e => Except.error e
    | Except.ok stPre =>
      match responderNode env.responder stPre with
      | Except.error e => Except.error e
      | Except.ok u4 => Except.ok (applyUpdate stPre u4)

/-- The initial shared state for one question, as in the `build_graph`
docstring (src/agents/graph.py lines 55-70). -/
def initState (question : Str) (lf : Option LFModel) : PState :=
  { user_question := question
    raw_dataframe := lf
    plan := PyJson.obj []
    next_node := PyJson.str []
    analysis_result := none
    generated_code := []
    sql_query := []
    sql_result := none
    figure := none
    error := none
    retry_count := 0
    final_answer := [] }

/-- Whether a `PolarsAnalyst.analyze` attempt with this environment fails. -/
def stepFails (e : AttemptEnv) : Bool :=
  match (pAttemptStep e).2 with
  | Except.error _ => true
  | Except.ok _ => false

/-- The exception a failing `PolarsAnalyst.analyze` attempt raises. -/
def stepExc (e : AttemptEnv) : Exc :=
  match (pAttemptStep e).2 with
  | Except.error x => x
  | Except.ok _ => ⟨[], []⟩

/-- The DataFrame a succeeding `PolarsAnalyst.analyze` attempt produces. -/
def stepPayload (e : AttemptEnv) : Option PyVal :=
  match (pAttemptStep e).2 with
  | Except.ok v => some v
  | Except.error _ => none

/-- The code a `PolarsAnalyst.analyze` attempt extracted (empty when the
model call raised before extraction). -/
def stepCodeVal (e : AttemptEnv) : Str :=
  match e.resp with
  | .raises _ _ => []
  | .returns text => extractTag text ("code".data)

/-- Whether a `VizGenerator.generate` attempt with this environment fails. -/
def vStepFails (e : AttemptEnv) : Bool :=
  match (vAttemptStep e).2 with
  | Except.error _ => true
  | Except.ok _ => false

/-- The exception a failing `VizGenerator.generate` attempt raises. -/
def vStepExc (e : AttemptEnv) : Exc :=
  match (vAttemptStep e).2 with
  | Except.error x => x
  | Except.ok _ => ⟨[], []⟩

/-- The figure a succeeding `VizGenerator.generate` attempt produces. -/
def vStepPayload (e : AttemptEnv) : Option PyVal :=
  match (vAttemptStep e).2 with
  | Except.ok v => some v
  | Except.error _ => none

/-- The code a `VizGenerator.generate` attempt extracted. -/
def vStepCodeVal (e : AttemptEnv) : Str :=
  match e.resp with
  | .raises _ _ => []
  | .returns text => extractTag text ("code".data)

/-- The canonical error history the analysis loop accumulates over the
failing attempts `a, a+1, ..., a+len-1`. -/
def pHistSegA (env : Nat → AttemptEnv) (a len : Nat) : List Str :=
  (List.range' a len).map
    (fun i => mkErrorMsg i (stepExc (env i)).kind (stepExc (env i)).msg (env i).tb)

/-- The canonical error history the viz loop accumulates over the failing
attempts `a, a+1, ..., a+len-1`. -/
def pHistSegV (env : Nat → AttemptEnv) (a len : Nat) : List Str :=
  (List.range' a len).map
    (fun i => mkVizErrorMsg i (vStepExc (env i)).kind (vStepExc (env i)).msg (env i).tb)

/-- An attempt environment that always fails (the model call itself
raises), used as witness input. -/
def envAllFail : Nat → AttemptEnv :=
  fun _ => ⟨ModelResp.raises ("TimeoutError".data) ("model call failed".data),
            ExecOutcome.binds none, "tb".data⟩

/-- An attempt environment failing on attempt 1 and succeeding from
attempt 2 on, used as witness input. -/
def envSecondOk : Nat → AttemptEnv :=
  fun i =>
    if i = 1 then
      ⟨ModelResp.raises ("ValueError".data) ("bad".data), ExecOutcome.binds none, "tb".data⟩
    else
      ⟨ModelResp.returns ("<code>x = 1</code>".data),
       ExecOutcome.binds (some ⟨"DataFrame".data, true, true⟩), "tb".data⟩

/-- An attempt environment whose generated code binds the output variable
to a plain `int` — not a DataFrame and not a chart. -/
def envWrongType : Nat → AttemptEnv :=
  fun _ => ⟨ModelResp.returns ("<code>fig = 3</code>".data),
            ExecOutcome.binds (some ⟨"int".data, false, false⟩), "tb".data⟩

/-- The query text `SQLGenerator.generate` has gathered by the time any
failure is reported: empty when the model call raised, the extracted
`<sql>` block (possibly empty) otherwise. -/
def sqlQueryOf (env : SqlEnv) : Str :=
  match env.resp with
  | .raises _ _ => []
  | .returns text => extractTag text ("sql".data)

/-- A concrete `SQLGenerator.generate` environment whose single query
execution fails. -/
def sqlEnvExecFail : SqlEnv :=
  ⟨ModelResp.returns ("<sql>SELECT 1</sql>".data), Except.ok (),
   Except.error ⟨"BinderException".data, "no such column".data⟩⟩

/-- A concrete stand-in for `json.loads` agreeing with it on the one input
used: `json.loads("42")` succeeds and yields the number 42. -/
def parse42 : Str → Option PyJson :=
  fun t => if t = "42".data then some (PyJson.num 42) else none

/-- Projection of an `Except`-returned node update (the empty update on an
exception), used to state closed facts about the returned fields of a node. -/
def updOfE (x : Except Exc PUpdate) : PUpdate :=
  match x with
  | Except.ok u => u
  | Except.error _ => {}

/-- Whether a node call returned (rather than raised). -/
def isOkE (x : Except Exc PUpdate) : Bool :=
  match x with
  | Except.ok _ => true
  | Except.error _ => false

/-- A state holding a dataset and a plan with `requires_viz = true`. -/
def stVizPlan : PState :=
  { initState ("q".data) (some ⟨[("a".data, "Int64".data)], ⟨"DataFrame".data, true, false⟩⟩) with
    plan := PyJson.obj [("requires_viz".data, PyJson.bool true)] }

/-- A pipeline environment whose planner model call raises. -/
def pipeEnvPlannerCrash : PipelineEnv :=
  { plannerResp := ModelResp.raises ("ReadTimeout".data) ("model unavailable".data)
    analysisAttempts := envAllFail
    sql := sqlEnvExecFail
    viz := ⟨envAllFail, "c".data, "s".data⟩
    responder := ⟨ModelResp.returns ("answer".data), "pa".data, "ps".data⟩ }

/-- A pipeline environment whose planner and responder model calls return
but whose every tool (analysis, SQL, viz) fails. -/
def pipeEnvToolsFail : PipelineEnv :=
  { plannerResp := ModelResp.returns ("no plan here".data)
    analysisAttempts := envAllFail
    sql := sqlEnvExecFail
    viz := ⟨envAllFail, "c".data, "s".data⟩
    responder := ⟨ModelResp.returns ("answer".data), "pa".data, "ps".data⟩ }

/-- An attempt environment whose exception traceback contains a
whitespace-only line. -/
def envWsTraceback : Nat → AttemptEnv :=
  fun _ => ⟨ModelResp.raises ("ValueError".data) ("m".data),
            ExecOutcome.binds none, "x\n   \ny".data⟩

/-- Boolean substring test used to evaluate infix facts on concrete
strings. -/
def isSubstr (p : Str) : Str → Bool
  | [] => p.isEmpty
  | c :: rest => List.isPrefixOf p (c :: rest) || isSubstr p rest

lemma pAttemptStep_snd_of_fail (e : AttemptEnv) (h : stepFails e = true) :
    (pAttemptStep e).2 = Except.error (stepExc e) := by
  unfold stepFails stepExc at *
  cases hs : (pAttemptStep e).2 <;> simp [hs] at h ⊢

lemma pAttemptStep_eq_of_fail (e : AttemptEnv) (h : stepFails e = true) :
    pAttemptStep e = ((pAttemptStep e).1, Except.error (stepExc e)) := by
  rw [← pAttemptStep_snd_of_fail e h]

lemma pAttemptStep_eq_of_ok (e : AttemptEnv) (v : PyVal)
    (h : (pAttemptStep e).2 = Except.ok v) :
    pAttemptStep e = (some (stepCodeVal e), Except.ok v) := by
  rcases he : e.resp with ⟨k, m⟩ | t
  all_goals unfold pAttemptStep at h ⊢
  all_goals unfold stepCodeVal
  all_goals rw [he] at h ⊢
  · simp at h
  · simp only at h ⊢
    split_ifs at h ⊢ with hc
    simp_all

lemma vAttemptStep_snd_of_fail (e : AttemptEnv) (h : vStepFails e = true) :
    (vAttemptStep e).2 = Except.error (vStepExc e) := by
  unfold vStepFails vStepExc at *
  cases hs : (vAttemptStep e).2 <;> simp [hs] at h ⊢

lemma vAttemptStep_eq_of_fail (e : AttemptEnv) (h : vStepFails e = true) :
    vAttemptStep e = ((vAttemptStep e).1, Except.error (vStepExc e)) := by
  rw [← vAttemptStep_snd_of_fail e h]

lemma vAttemptStep_eq_of_ok (e : AttemptEnv) (v : PyVal)
    (h : (vAttemptStep e).2 = Except.ok v) :
    vAttemptStep e = (some (vStepCodeVal e), Except.ok v) := by
  rcases he : e.resp with ⟨k, m⟩ | t
  all_goals unfold vAttemptStep at h ⊢
  all_goals unfold vStepCodeVal
  all_goals rw [he] at h ⊢
  · simp at h
  · simp only at h ⊢
    split_ifs at h ⊢ with hc
    rcases hx : e.execOut with ⟨k2, m2⟩ | ov
    · simp_all
    · cases ov <;> simp_all

lemma stepFails_false_ok (e : AttemptEnv) (h : stepFails e = false) :
    ∃ v, (pAttemptStep e).2 = Except.ok v := by
  unfold stepFails at h
  cases hs : (pAttemptStep e).2 with
  | error x => rw [hs] at h; simp at h
  | ok v => exact ⟨v, rfl⟩

lemma vStepFails_false_ok (e : AttemptEnv) (h : vStepFails e = false) :
    ∃ v, (vAttemptStep e).2 = Except.ok v := by
  unfold vStepFails at h
  cases hs : (vAttemptStep e).2 with
  | error x => rw [hs] at h; simp at h
  | ok v => exact ⟨v, rfl⟩

lemma analyzeGo_cons_fail (env : Nat → AttemptEnv) (R : Nat) (q s : Str)
    (a : Nat) (rest : List Nat) (hist : List Str) (code : Str)
    (hfa : stepFails (env a) = true) :
    analyzeGo env R q s (a :: rest) hist code =
      if a > R then
        (⟨false, none, ((pAttemptStep (env a)).1).getD code, some (stepExc (env a)).msg, a⟩,
          [⟨a, decide (a > R), hist, buildPrompt q s hist⟩], false)
      else
        (let res := analyzeGo env R q s rest
            (hist ++ [mkErrorMsg a (stepExc (env a)).kind (stepExc (env a)).msg (env a).tb])
            (((pAttemptStep (env a)).1).getD code)
         (res.1, ⟨a, decide (a > R), hist, buildPrompt q s hist⟩ :: res.2.1, res.2.2)) := by
  conv_lhs => rw [analyzeGo]
  rw [pAttemptStep_eq_of_fail (env a) hfa]

lemma analyzeGo_cons_ok (env : Nat → AttemptEnv) (R : Nat) (q s : Str)
    (a : Nat) (rest : List Nat) (hist : List Str) (code : Str) (v : PyVal)
    (hok : (pAttemptStep (env a)).2 = Except.ok v) :
    analyzeGo env R q s (a :: rest) hist code =
      (⟨true, some v, stepCodeVal (env a), none, a⟩,
        [⟨a, decide (a > R), hist, buildPrompt q s hist⟩], false) := by
  conv_lhs => rw [analyzeGo]
  rw [pAttemptStep_eq_of_ok (env a) v hok]
  rfl

lemma vizGo_cons_fail (env : Nat → AttemptEnv) (R : Nat) (bp : Str)
    (a : Nat) (rest : List Nat) (hist : List Str) (code : Str)
    (hfa : vStepFails (env a) = true) :
    vizGo env R bp (a :: rest) hist code =
      if a > R then
        (⟨false, none, ((vAttemptStep (env a)).1).getD code, some (vStepExc (env a)).msg, a⟩,
          [⟨a, decide (a > R), hist, vizPrompt bp hist⟩], false)
      else
        (let res := vizGo env R bp rest
            (hist ++ [mkVizErrorMsg a (vStepExc (env a)).kind (vStepExc (env a)).msg (env a).tb])
            (((vAttemptStep (env a)).1).getD code)
         (res.1, ⟨a, decide (a > R), hist, vizPrompt bp hist⟩ :: res.2.1, res.2.2)) := by
  conv_lhs => rw [vizGo]
  rw [vAttemptStep_eq_of_fail (env a) hfa]

lemma vizGo_cons_ok (env : Nat → AttemptEnv) (R : Nat) (bp : Str)
    (a : Nat) (rest : List Nat) (hist : List Str) (code : Str) (v : PyVal)
    (hok : (vAttemptStep (env a)).2 = Except.ok v) :
    vizGo env R bp (a :: rest) hist code =
      (⟨true, some v, vStepCodeVal (env a), none, a⟩,
        [⟨a, decide (a > R), hist, vizPrompt bp hist⟩], false) := by
  conv_lhs => rw [vizGo]
  rw [vAttemptStep_eq_of_ok (env a) v hok]
  rfl

lemma pHistSegA_succ (env : Nat → AttemptEnv) (a len : Nat) :
    pHistSegA env a (len + 1) =
      mkErrorMsg a (stepExc (env a)).kind (stepExc (env a)).msg (env a).tb ::
        pHistSegA env (a + 1) len := by
  unfold pHistSegA
  rw [List.range'_succ]
  rfl

lemma pHistSegA_concat (env : Nat → AttemptEnv) (a len : Nat) :
    pHistSegA env a (len + 1) =
      pHistSegA env a len ++
        [mkErrorMsg (a + len) (stepExc (env (a + len))).kind
          (stepExc (env (a + len))).msg (env (a + len)).tb] := by
  unfold pHistSegA
  rw [List.range'_concat]
  simp

lemma pHistSegV_succ (env : Nat → AttemptEnv) (a len : Nat) :
    pHistSegV env a (len + 1) =
      mkVizErrorMsg a (vStepExc (env a)).kind (vStepExc (env a)).msg (env a).tb ::
        pHistSegV env (a + 1) len := by
  unfold pHistSegV
  rw [List.range'_succ]
  rfl

lemma pHistSegV_concat (env : Nat → AttemptEnv) (a len : Nat) :
    pHistSegV env a (len + 1) =
      pHistSegV env a len ++
        [mkVizErrorMsg (a + len) (vStepExc (env (a + len))).kind
          (vStepExc (env (a + len))).msg (env (a + len)).tb] := by
  unfold pHistSegV
  rw [List.range'_concat]
  simp

lemma pHistSegA_length (env : Nat → AttemptEnv) (a len : Nat) :
    (pHistSegA env a len).length = len := by
  unfold pHistSegA
  simp

lemma pHistSegV_length (env : Nat → AttemptEnv) (a len : Nat) :
    (pHistSegV env a len).length = len := by
  unfold pHistSegV
  simp

lemma analyzeGo_allFail (env : Nat → AttemptEnv) (R : Nat) (q s : Str) :
    ∀ n a hist code, a + n = R + 2 →
      (∀ i, a ≤ i → i ≤ R + 1 → stepFails (env i) = true) →
      ((analyzeGo env R q s (List.range' a n) hist code).2.1).map
          (fun t => (t.attempt, t.use_fallback)) =
        (List.range' a n).map (fun i => (i, decide (i > R))) ∧
      ((analyzeGo env R q s (List.range' a n) hist code).2.1).length = n := by
  intro n
  induction n with
  | zero => intro a hist code _ _; simp [analyzeGo]
  | succ k ih =>
    intro a hist code ha hf
    have hfa : stepFails (env a) = true := hf a le_rfl (by omega)
    rw [List.range'_succ, analyzeGo_cons_fail env R q s a _ hist code hfa]
    by_cases hgt : a > R
    · have hk : k = 0 := by omega
      subst hk
      rw [if_pos hgt]
      simp
    · rw [if_neg hgt]
      have ih' := ih (a + 1)
        (hist ++ [mkErrorMsg a (stepExc (env a)).kind (stepExc (env a)).msg (env a).tb])
        (((pAttemptStep (env a)).1).getD code) (by omega)
        (fun i h1 h2 => hf i (by omega) h2)
      simp only [List.map_cons, List.length_cons]
      exact ⟨by rw [ih'.1], by rw [ih'.2]⟩

lemma analyzeGo_allFail_result (env : Nat → AttemptEnv) (R : Nat) (q s : Str) :
    ∀ n a hist code, a + n = R + 2 → 1 ≤ n →
      (∀ i, a ≤ i → i ≤ R + 1 → stepFails (env i) = true) →
      (analyzeGo env R q s (List.range' a n) hist code).1.success = false ∧
      (analyzeGo env R q s (List.range' a n) hist code).1.result_df = none ∧
      (analyzeGo env R q s (List.range' a n) hist code).1.error =
        some (stepExc (env (R + 1))).msg ∧
      (analyzeGo env R q s (List.range' a n) hist code).1.attempts = R + 1 := by
  intro n
  induction n with
  | zero => intro a hist code _ h1 _; omega
  | succ k ih =>
    intro a hist code ha _ hf
    have hfa : stepFails (env a) = true := hf a le_rfl (by omega)
    rw [List.range'_succ, analyzeGo_cons_fail env R q s a _ hist code hfa]
    by_cases hgt : a > R
    · have hk : a = R + 1 := by omega
      subst hk
      rw [if_pos hgt]
      simp
    · rw [if_neg hgt]
      have ih' := ih (a + 1)
        (hist ++ [mkErrorMsg a (stepExc (env a)).kind (stepExc (env a)).msg (env a).tb])
        (((pAttemptStep (env a)).1).getD code) (by omega) (by omega)
        (fun i h1 h2 => hf i (by omega) h2)
      exact ih'

lemma analyzeGo_firstSuccess (env : Nat → AttemptEnv) (R : Nat) (q s : Str) :
    ∀ n a hist code k v, a + n = R + 2 → a ≤ k → k ≤ R + 1 →
      (∀ i, a ≤ i → i < k → stepFails (env i) = true) →
      (pAttemptStep (env k)).2 = Except.ok v →
      (analyzeGo env R q s (List.range' a n) hist code).1 =
        ⟨true, some v, stepCodeVal (env k), none, k⟩ ∧
      ((analyzeGo env R q s (List.range' a n) hist code).2.1).length = k + 1 - a ∧
      (analyzeGo env R q s (List.range' a n) hist code).2.2 = false := by
  intro n
  induction n with
  | zero => intro a hist code k v ha hak hk _ _; omega
  | succ j ih =>
    intro a hist code k v ha hak hkR hf hok
    rw [List.range'_succ]
    rcases Nat.eq_or_lt_of_le hak with heq | hlt
    · subst heq
      rw [analyzeGo_cons_ok env R q s a _ hist code v hok]
      simp
    · have hfa : stepFails (env a) = true := hf a le_rfl hlt
      rw [analyzeGo_cons_fail env R q s a _ hist code hfa]
      have hgt : ¬ a > R := by omega
      rw [if_neg hgt]
      have ih' := ih (a + 1)
        (hist ++ [mkErrorMsg a (stepExc (env a)).kind (stepExc (env a)).msg (env a).tb])
        (((pAttemptStep (env a)).1).getD code) k v (by omega) (by omega) hkR
        (fun i h1 h2 => hf i (by omega) h2) hok
      refine ⟨ih'.1, ?_, ih'.2.2⟩
      simp only [List.length_cons, ih'.2.1]
      omega

lemma analyzeGo_trace_get (env : Nat → AttemptEnv) (R : Nat) (q s : Str) :
    ∀ n a hist code m, a + n = R + 2 → a ≤ m → m ≤ R + 1 →
      (∀ i, a ≤ i → i < m → stepFails (env i) = true) →
      ((analyzeGo env R q s (List.range' a n) hist code).2.1)[m - a]? =
        some ⟨m, decide (m > R), hist ++ pHistSegA env a (m - a),
              buildPrompt q s (hist ++ pHistSegA env a (m - a))⟩ := by
  intro n
  induction n with
  | zero => intro a hist code m ha ham hm _; omega
  | succ j ih =>
    intro a hist code m ha ham hmR hf
    rw [List.range'_succ]
    rcases Nat.eq_or_lt_of_le ham with heq | hlt
    · subst heq
      have hseg : pHistSegA env a 0 = [] := by
        simp [pHistSegA]
      rw [Nat.sub_self, hseg, List.append_nil]
      cases hs : stepFails (env a) with
      | true =>
        rw [analyzeGo_cons_fail env R q s a _ hist code hs]
        by_cases hgt : a > R
        · rw [if_pos hgt]; simp
        · rw [if_neg hgt]; simp
      | false =>
        obtain ⟨v, hok⟩ := stepFails_false_ok (env a) hs
        rw [analyzeGo_cons_ok env R q s a _ hist code v hok]
        simp
    · have hfa : stepFails (env a) = true := hf a le_rfl hlt
      rw [analyzeGo_cons_fail env R q s a _ hist code hfa]
      have hgt : ¬ a > R := by omega
      rw [if_neg hgt]
      have ih' := ih (a + 1)
        (hist ++ [mkErrorMsg a (stepExc (env a)).kind (stepExc (env a)).msg (env a).tb])
        (((pAttemptStep (env a)).1).getD code) m (by omega) (by omega) hmR
        (fun i h1 h2 => hf i (by omega) h2)
      have hidx : m - a = (m - (a + 1)) + 1 := by omega
      rw [hidx]
      simp only [List.getElem?_cons_succ]
      rw [ih']
      have hseg : hist ++ [mkErrorMsg a (stepExc (env a)).kind (stepExc (env a)).msg (env a).tb]
            ++ pHistSegA env (a + 1) (m - (a + 1)) =
          hist ++ pHistSegA env a (m - (a + 1) + 1) := by
        rw [pHistSegA_succ, List.append_assoc]
        rfl
      rw [hseg, ← hidx]

lemma analyzeGo_no_defensive (env : Nat → AttemptEnv) (R : Nat) (q s : Str) :
    ∀ n a hist code, a + n = R + 2 → 1 ≤ n →
      (analyzeGo env R q s (List.range' a n) hist code).2.2 = false := by
  intro n
  induction n with
  | zero => intro a hist code _ h1; omega
  | succ j ih =>
    intro a hist code ha _
    rw [List.range'_succ]
    cases hs : stepFails (env a) with
    | false =>
      obtain ⟨v, hok⟩ := stepFails_false_ok (env a) hs
      rw [analyzeGo_cons_ok env R q s a _ hist code v hok]
    | true =>
      rw [analyzeGo_cons_fail env R q s a _ hist code hs]
      by_cases hgt : a > R
      · rw [if_pos hgt]
      · rw [if_neg hgt]
        exact ih (a + 1) _ _ (by omega) (by omega)

lemma vizGo_allFail (env : Nat → AttemptEnv) (R : Nat) (bp : Str) :
    ∀ n a hist code, a + n = R + 2 →
      (∀ i, a ≤ i → i ≤ R + 1 → vStepFails (env i) = true) →
      ((vizGo env R bp (List.range' a n) hist code).2.1).map
          (fun t => (t.attempt, t.use_fallback)) =
        (List.range' a n).map (fun i => (i, decide (i > R))) ∧
      ((vizGo env R bp (List.range' a n) hist code).2.1).length = n := by
  intro n
  induction n with
  | zero => intro a hist code _ _; simp [vizGo]
  | succ k ih =>
    intro a hist code ha hf
    have hfa : vStepFails (env a) = true := hf a le_rfl (by omega)
    rw [List.range'_succ, vizGo_cons_fail env R bp a _ hist code hfa]
    by_cases hgt : a > R
    · have hk : k = 0 := by omega
      subst hk
      rw [if_pos hgt]
      simp
    · rw [if_neg hgt]
      have ih' := ih (a + 1)
        (hist ++ [mkVizErrorMsg a (vStepExc (env a)).kind (vStepExc (env a)).msg (env a).tb])
        (((vAttemptStep (env a)).1).getD code) (by omega)
        (fun i h1 h2 => hf i (by omega) h2)
      simp only [List.map_cons, List.length_cons]
      exact ⟨by rw [ih'.1], by rw [ih'.2]⟩

lemma vizGo_allFail_result (env : Nat → AttemptEnv) (R : Nat) (bp : Str) :
    ∀ n a hist code, a + n = R + 2 → 1 ≤ n →
      (∀ i, a ≤ i → i ≤ R + 1 → vStepFails (env i) = true) →
      (vizGo env R bp (List.range' a n) hist code).1.success = false ∧
      (vizGo env R bp (List.range' a n) hist code).1.figure = none ∧
      (vizGo env R bp (List.range' a n) hist code).1.error =
        some (vStepExc (env (R + 1))).msg ∧
      (vizGo env R bp (List.range' a n) hist code).1.attempts = R + 1 := by
  intro n
  induction n with
  | zero => intro a hist code _ h1 _; omega
  | succ k ih =>
    intro a hist code ha _ hf
    have hfa : vStepFails (env a) = true := hf a le_rfl (by omega)
    rw [List.range'_succ, vizGo_cons_fail env R bp a _ hist code hfa]
    by_cases hgt : a > R
    · have hk : a = R + 1 := by omega
      subst hk
      rw [if_pos hgt]
      simp
    · rw [if_neg hgt]
      exact ih (a + 1)
        (hist ++ [mkVizErrorMsg a (vStepExc (env a)).kind (vStepExc (env a)).msg (env a).tb])
        (((vAttemptStep (env a)).1).getD code) (by omega) (by omega)
        (fun i h1 h2 => hf i (by omega) h2)

lemma vizGo_firstSuccess (env : Nat → AttemptEnv) (R : Nat) (bp : Str) :
    ∀ n a hist code k v, a + n = R + 2 → a ≤ k → k ≤ R + 1 →
      (∀ i, a ≤ i → i < k → vStepFails (env i) = true) →
      (vAttemptStep (env k)).2 = Except.ok v →
      (vizGo env R bp (List.range' a n) hist code).1 =
        ⟨true, some v, vStepCodeVal (env k), none, k⟩ ∧
      ((vizGo env R bp (List.range' a n) hist code).2.1).length = k + 1 - a ∧
      (vizGo env R bp (List.range' a n) hist code).2.2 = false := by
  intro n
  induction n with
  | zero => intro a hist code k v ha hak hk _ _; omega
  | succ j ih =>
    intro a hist code k v ha hak hkR hf hok
    rw [List.range'_succ]
    rcases Nat.eq_or_lt_of_le hak with heq | hlt
    · subst heq
      rw [vizGo_cons_ok env R bp a _ hist code v hok]
      simp
    · have hfa : vStepFails (env a) = true := hf a le_rfl hlt
      rw [vizGo_cons_fail env R bp a _ hist code hfa]
      have hgt : ¬ a > R := by omega
      rw [if_neg hgt]
      have ih' := ih (a + 1)
        (hist ++ [mkVizErrorMsg a (vStepExc (env a)).kind (vStepExc (env a)).msg (env a).tb])
        (((vAttemptStep (env a)).1).getD code) k v (by omega) (by omega) hkR
        (fun i h1 h2 => hf i (by omega) h2) hok
      refine ⟨ih'.1, ?_, ih'.2.2⟩
      simp only [List.length_cons, ih'.2.1]
      omega

lemma vizGo_trace_get (env : Nat → AttemptEnv) (R : Nat) (bp : Str) :
    ∀ n a hist code m, a + n = R + 2 → a ≤ m → m ≤ R + 1 →
      (∀ i, a ≤ i → i < m → vStepFails (env i) = true) →
      ((vizGo env R bp (List.range' a n) hist code).2.1)[m - a]? =
        some ⟨m, decide (m > R), hist ++ pHistSegV env a (m - a),
              vizPrompt bp (hist ++ pHistSegV env a (m - a))⟩ := by
  intro n
  induction n with
  | zero => intro a hist code m ha ham hm _; omega
  | succ j ih =>
    intro a hist code m ha ham hmR hf
    rw [List.range'_succ]
    rcases Nat.eq_or_lt_of_le ham with heq | hlt
    · subst heq
      have hseg : pHistSegV env a 0 = [] := by
        simp [pHistSegV]
      rw [Nat.sub_self, hseg, List.append_nil]
      cases hs : vStepFails (env a) with
      | true =>
        rw [vizGo_cons_fail env R bp a _ hist code hs]
        by_cases hgt : a > R
        · rw [if_pos hgt]; simp
        · rw [if_neg hgt]; simp
      | false =>
        obtain ⟨v, hok⟩ := vStepFails_false_ok (env a) hs
        rw [vizGo_cons_ok env R bp a _ hist code v hok]
        simp
    · have hfa : vStepFails (env a) = true := hf a le_rfl hlt
      rw [vizGo_cons_fail env R bp a _ hist code hfa]
      have hgt : ¬ a > R := by omega
      rw [if_neg hgt]
      have ih' := ih (a + 1)
        (hist ++ [mkVizErrorMsg a (vStepExc (env a)).kind (vStepExc (env a)).msg (env a).tb])
        (((vAttemptStep (env a)).1).getD code) m (by omega) (by omega) hmR
        (fun i h1 h2 => hf i (by omega) h2)
      have hidx : m - a = (m - (a + 1)) + 1 := by omega
      rw [hidx]
      simp only [List.getElem?_cons_succ]
      rw [ih']
      have hseg : hist ++ [mkVizErrorMsg a (vStepExc (env a)).kind (vStepExc (env a)).msg (env a).tb]
            ++ pHistSegV env (a + 1) (m - (a + 1)) =
          hist ++ pHistSegV env a (m - (a + 1) + 1) := by
        rw [pHistSegV_succ, List.append_assoc]
        rfl
      rw [hseg, ← hidx]

lemma vizGo_no_defensive (env : Nat → AttemptEnv) (R : Nat) (bp : Str) :
    ∀ n a hist code, a + n = R + 2 → 1 ≤ n →
      (vizGo env R bp (List.range' a n) hist code).2.2 = false := by
  intro n
  induction n with
  | zero => intro a hist code _ h1; omega
  | succ j ih =>
    intro a hist code ha _
    rw [List.range'_succ]
    cases hs : vStepFails (env a) with
    | false =>
      obtain ⟨v, hok⟩ := vStepFails_false_ok (env a) hs
      rw [vizGo_cons_ok env R bp a _ hist code v hok]
    | true =>
      rw [vizGo_cons_fail env R bp a _ hist code hs]
      by_cases hgt : a > R
      · rw [if_pos hgt]
      · rw [if_neg hgt]
        exact ih (a + 1) _ _ (by omega) (by omega)

lemma dropWhile_append_left {α : Type} (p : α → Bool) (l₁ l₂ : List α)
    (h : ∃ x ∈ l₁, p x = false) :
    List.dropWhile p (l₁ ++ l₂) = List.dropWhile p l₁ ++ l₂ := by
  induction l₁ with
  | nil => simp at h
  | cons a t ih =>
    rcases h with ⟨x, hx, hpx⟩
    simp only [List.cons_append, List.dropWhile_cons]
    cases hpa : p a with
    | false => simp
    | true =>
      have hxt : x ∈ t := by
        rcases List.mem_cons.mp hx with h1 | h1
        · subst h1; rw [hpa] at hpx; cases hpx
        · exact h1
      simp only [if_pos]
      exact ih ⟨x, hxt, hpx⟩

lemma pyStripL_append_middle (A M B : Str)
    (hA : ∃ x ∈ A, isPyWs x = false) (hB : ∃ x ∈ B, isPyWs x = false) :
    pyStripL (A ++ M ++ B) =
      List.dropWhile isPyWs A ++ M ++ ((B.reverse).dropWhile isPyWs).reverse := by
  unfold pyStripL
  rw [List.append_assoc, dropWhile_append_left isPyWs A (M ++ B) hA]
  rw [List.reverse_append, List.reverse_append, List.append_assoc]
  rw [dropWhile_append_left isPyWs B.reverse _
    (by rcases hB with ⟨x, hx, hpx⟩; exact ⟨x, List.mem_reverse.mpr hx, hpx⟩)]
  rw [List.reverse_append, List.reverse_append, List.reverse_reverse, List.reverse_reverse]

lemma infix_of_infix_middle (A M B e : Str) (he : e <:+: M) : e <:+: A ++ M ++ B :=
  he.trans (List.infix_append A M B)

lemma infixOfPfx {α : Type} {l t : List α} (h : l <+: t) : l <:+: t :=
  List.IsPrefix.isInfix h

lemma infixOfSfx {α : Type} {l t : List α} (h : l <:+ t) : l <:+: t :=
  List.IsSuffix.isInfix h

lemma infix_intercalate (sep : Str) (hist : List Str) (e : Str) (he : e ∈ hist) :
    e <:+: List.intercalate sep hist := by
  induction hist with
  | nil => cases he
  | cons x t ih =>
    cases t with
    | nil =>
      rcases List.mem_cons.mp he with h1 | h1
      · subst h1; simp [List.intercalate]
      · cases h1
    | cons y t2 =>
      have hstep : List.intercalate sep (x :: y :: t2) =
          x ++ (sep ++ List.intercalate sep (y :: t2)) := by
        simp [List.intercalate, List.intersperse_cons_cons]
      rw [hstep]
      rcases List.mem_cons.mp he with h1 | h1
      · subst h1
        exact infixOfPfx (List.prefix_append _ _)
      · exact ((ih h1).trans (infixOfSfx (List.suffix_append sep _))).trans
          (infixOfSfx (List.suffix_append x _))

/-- C1. For every run of a code-generation retry loop (`PolarsAnalyst.analyze`
or `VizGenerator.generate`) in which every attempt fails, the loop performs
exactly `R + 1` attempts and never more (the instrumentation trace records
one entry per `build_llm`/`llm.invoke` iteration): the recorded attempt
numbers are `1 .. R + 1`, attempts `1 .. R` carry `use_fallback = false`
and attempt `R + 1` carries `use_fallback = true`. -/
theorem claim1_retry_budget_and_model_switch
    (R : Nat) (q s bp : Str) (envA envV : Nat → AttemptEnv)
    (hA : ∀ i, 1 ≤ i → i ≤ R + 1 → stepFails (envA i) = true)
    (hV : ∀ i, 1 ≤ i → i ≤ R + 1 → vStepFails (envV i) = true) :
    ((analyzeRun envA R q s).2.1).length = R + 1 ∧
    ((analyzeRun envA R q s).2.1).map (fun t => (t.attempt, t.use_fallback)) =
      (List.range' 1 (R + 1)).map (fun i => (i, decide (i > R))) ∧
    ((vizRun envV R bp).2.1).length = R + 1 ∧
    ((vizRun envV R bp).2.1).map (fun t => (t.attempt, t.use_fallback)) =
      (List.range' 1 (R + 1)).map (fun i => (i, decide (i > R))) := by
  have h1 := analyzeGo_allFail envA R q s (R + 1) 1 [] [] (by omega) (fun i h1 h2 => hA i h1 h2)
  have h2 := vizGo_allFail envV R bp (R + 1) 1 [] [] (by omega) (fun i h1 h2 => hV i h1 h2)
  exact ⟨h1.2, h1.1, h2.2, h2.1⟩

/-- Witness for C1 at `R = 3` with a concrete always-failing environment. -/
theorem claim1_witness :
    ((analyzeRun envAllFail 3 ("q".data) ("s".data)).2.1).length = 3 + 1 ∧
    ((analyzeRun envAllFail 3 ("q".data) ("s".data)).2.1).map
        (fun t => (t.attempt, t.use_fallback)) =
      (List.range' 1 (3 + 1)).map (fun i => (i, decide (i > 3))) ∧
    ((vizRun envAllFail 3 ("bp".data)).2.1).length = 3 + 1 ∧
    ((vizRun envAllFail 3 ("bp".data)).2.1).map
        (fun t => (t.attempt, t.use_fallback)) =
      (List.range' 1 (3 + 1)).map (fun i => (i, decide (i > 3))) :=
  claim1_retry_budget_and_model_switch 3 ("q".data) ("s".data) ("bp".data)
    envAllFail envAllFail
    (fun _ _ _ => rfl) (fun _ _ _ => rfl)

/-- C3. If attempts `1 .. k-1` fail and attempt `k ≤ R + 1` succeeds, both
retry loops return `success = true`, the produced payload, the code of
attempt `k`, `error = none` and `attempts = k`, and the trace shows
exactly `k` model invocations (none after attempt `k`). -/
theorem claim3_first_success_returns
    (R : Nat) (q s bp : Str) (envA envV : Nat → AttemptEnv)
    (kA kV : Nat) (vA vV : PyVal)
    (hkA1 : 1 ≤ kA) (hkA2 : kA ≤ R + 1)
    (hfA : ∀ i, 1 ≤ i → i < kA → stepFails (envA i) = true)
    (hokA : (pAttemptStep (envA kA)).2 = Except.ok vA)
    (hkV1 : 1 ≤ kV) (hkV2 : kV ≤ R + 1)
    (hfV : ∀ i, 1 ≤ i → i < kV → vStepFails (envV i) = true)
    (hokV : (vAttemptStep (envV kV)).2 = Except.ok vV) :
    (analyzeRun envA R q s).1 = ⟨true, some vA, stepCodeVal (envA kA), none, kA⟩ ∧
    ((analyzeRun envA R q s).2.1).length = kA ∧
    (vizRun envV R bp).1 = ⟨true, some vV, vStepCodeVal (envV kV), none, kV⟩ ∧
    ((vizRun envV R bp).2.1).length = kV := by
  have h1 := analyzeGo_firstSuccess envA R q s (R + 1) 1 [] [] kA vA (by omega)
    hkA1 hkA2 hfA hokA
  have h2 := vizGo_firstSuccess envV R bp (R + 1) 1 [] [] kV vV (by omega)
    hkV1 hkV2 hfV hokV
  refine ⟨h1.1, ?_, h2.1, ?_⟩
  · unfold analyzeRun
    rw [h1.2.1]; omega
  · unfold vizRun
    rw [h2.2.1]; omega

/-- Witness for C3 at `R = 3`, `k = 2`, with a concrete environment whose
first attempt fails and whose second attempt succeeds. -/
theorem claim3_witness :
    (analyzeRun envSecondOk 3 ("q".data) ("s".data)).1 =
      ⟨true, some ⟨"DataFrame".data, true, true⟩, stepCodeVal (envSecondOk 2), none, 2⟩ ∧
    ((analyzeRun envSecondOk 3 ("q".data) ("s".data)).2.1).length = 2 ∧
    (vizRun envSecondOk 3 ("bp".data)).1 =
      ⟨true, some ⟨"DataFrame".data, true, true⟩, vStepCodeVal (envSecondOk 2), none, 2⟩ ∧
    ((vizRun envSecondOk 3 ("bp".data)).2.1).length = 2 :=
  claim3_first_success_returns 3 ("q".data) ("s".data) ("bp".data)
    envSecondOk envSecondOk 2 2 ⟨"DataFrame".data, true, true⟩ ⟨"DataFrame".data, true, true⟩
    (by omega) (by omega)
    (fun i h1 h2 => by
      have hi : i = 1 := by omega
      subst hi; rfl)
    (by rfl)
    (by omega) (by omega)
    (fun i h1 h2 => by
      have hi : i = 1 := by omega
      subst hi; rfl)
    (by rfl)

/-- C9. The defensive post-loop return of both retry loops is unreachable:
for every environment, the instrumentation flag marking that return is
false — the loop body returns before the attempt list is exhausted. -/
theorem claim9_defensive_return_unreachable
    (R : Nat) (q s bp : Str) (envA envV : Nat → AttemptEnv) :
    (analyzeRun envA R q s).2.2 = false ∧ (vizRun envV R bp).2.2 = false :=
  ⟨analyzeGo_no_defensive envA R q s (R + 1) 1 [] [] (by omega) (by omega),
   vizGo_no_defensive envV R bp (R + 1) 1 [] [] (by omega) (by omega)⟩

/-- Counterexample to C4 as stated: in the chart loop, code that runs
without raising but binds `fig` to an `int` (not a chart object) is
accepted — `VizGenerator.generate` returns it as a success payload on
attempt 1 instead of rejecting it with a validation error. -/
theorem claim4_counterexample :
    (VizGenerator.generate ("q".data) ("c".data) ("s".data) envWrongType).1.success = true ∧
    (VizGenerator.generate ("q".data) ("c".data) ("s".data) envWrongType).1.figure =
      some ⟨"int".data, false, false⟩ ∧
    (⟨"int".data, false, false⟩ : PyVal).isPlotlyFigure = false := by
  exact ⟨rfl, rfl, rfl⟩

/-- C4 (amended). In the analysis loop, generated code that executes
without raising but binds `result` to a non-DataFrame value fails the
attempt with a `ValueError` validation error naming the observed type
(not the own error of the execution outcome). In the chart loop there is no
type validation: only a missing `fig` binding is rejected, and any
non-`None` value bound to `fig` — of whatever type — is accepted and
returned as the success payload. -/
theorem claim4_amended_validation :
    (∀ (e : AttemptEnv) (text : Str) (v : PyVal),
       e.resp = ModelResp.returns text →
       extractTag text ("code".data) ≠ [] →
       e.execOut = ExecOutcome.binds (some v) →
       v.isPolarsDataFrame = false →
       (pAttemptStep e).2 = Except.error
         ⟨"ValueError".data,
          "`result` must be a polars.DataFrame, got ".data ++ v.typeName ++
            ". Did you forget .collect() at the end?".data⟩) ∧
    (∀ (e : AttemptEnv) (text : Str) (v : PyVal),
       e.resp = ModelResp.returns text →
       extractTag text ("code".data) ≠ [] →
       e.execOut = ExecOutcome.binds (some v) →
       (vAttemptStep e).2 = Except.ok v) := by
  constructor
  · intro e text v hresp hcode hexec hdf
    unfold pAttemptStep
    rw [hresp]
    simp only
    rw [if_neg hcode]
    unfold runCodeModel
    rw [hexec]
    simp [hdf]
  · intro e text v hresp hcode hexec
    unfold vAttemptStep
    rw [hresp]
    simp only
    rw [if_neg hcode]
    rw [hexec]

/-- Witness for the amended C4 at a concrete wrong-typed binding. -/
theorem claim4_witness :
    (pAttemptStep (envWrongType 1)).2 = Except.error
      ⟨"ValueError".data,
       "`result` must be a polars.DataFrame, got ".data ++ "int".data ++
         ". Did you forget .collect() at the end?".data⟩ ∧
    (vAttemptStep (envWrongType 1)).2 = Except.ok ⟨"int".data, false, false⟩ :=
  ⟨claim4_amended_validation.1 (envWrongType 1) ("<code>fig = 3</code>".data)
      ⟨"int".data, false, false⟩ rfl (by decide) rfl rfl,
   claim4_amended_validation.2 (envWrongType 1) ("<code>fig = 3</code>".data)
      ⟨"int".data, false, false⟩ rfl (by decide) rfl⟩

/-- C7. Every `SQLGenerator.generate` invocation performs exactly one
model call and at most one query execution (no retry), the returned
`sql_query` is always the query text obtained so far (possibly the empty
string), and every failure yields `success = false` with
`result_df = none` and a non-null error. -/
theorem claim7_sql_single_shot (question : Str) (schema : List (Str × Str)) (env : SqlEnv) :
    (SQLGenerator.generate question schema env).2.modelCalls = 1 ∧
    (SQLGenerator.generate question schema env).2.queryExecs ≤ 1 ∧
    (SQLGenerator.generate question schema env).1.sql_query = sqlQueryOf env ∧
    ((SQLGenerator.generate question schema env).1.success = false →
      (SQLGenerator.generate question schema env).1.result_df = none ∧
      (SQLGenerator.generate question schema env).1.error ≠ none) := by
  unfold SQLGenerator.generate sqlQueryOf
  rcases env with ⟨resp, collectRes, execRes⟩
  cases resp with
  | raises k m => simp
  | returns text =>
    simp only
    split_ifs with hq
    · simp
    · cases collectRes with
      | error e => simp
      | ok u =>
        cases execRes with
        | error e => simp
        | ok df => simp

/-- Witness for C7 at a concrete failing environment. -/
theorem claim7_witness :
    (SQLGenerator.generate ("q".data) [] sqlEnvExecFail).2.modelCalls = 1 ∧
    (SQLGenerator.generate ("q".data) [] sqlEnvExecFail).2.queryExecs ≤ 1 ∧
    (SQLGenerator.generate ("q".data) [] sqlEnvExecFail).1.sql_query = sqlQueryOf sqlEnvExecFail ∧
    ((SQLGenerator.generate ("q".data) [] sqlEnvExecFail).1.success = false →
      (SQLGenerator.generate ("q".data) [] sqlEnvExecFail).1.result_df = none ∧
      (SQLGenerator.generate ("q".data) [] sqlEnvExecFail).1.error ≠ none) :=
  claim7_sql_single_shot ("q".data) [] sqlEnvExecFail

/-- C6. Whenever the structured-plan content of the planner model cannot be
parsed as valid JSON, `planner_node` returns exactly the fixed default
plan — `intent = "analysis"`, `routing = "executor"`,
`requires_sql = false`, `requires_viz = false`, `chart_type = null` — and
writes the routing signal `"executor"`. -/
theorem claim6_planner_default_on_unparseable
    (parseJson : Str → Option PyJson) (text : Str) (st : PState)
    (hp : parseJson (plannerRawJson text) = none) :
    plannerNode parseJson (ModelResp.returns text) st =
      Except.ok { plan := some (defaultPlan st.user_question),
                  next_node := some (PyJson.str ("executor".data)) } ∧
    pyDictGet (defaultPlan st.user_question) ("intent".data) PyJson.null =
      Except.ok (PyJson.str ("analysis".data)) ∧
    pyDictGet (defaultPlan st.user_question) ("routing".data) PyJson.null =
      Except.ok (PyJson.str ("executor".data)) ∧
    pyDictGet (defaultPlan st.user_question) ("requires_sql".data) PyJson.null =
      Except.ok (PyJson.bool false) ∧
    pyDictGet (defaultPlan st.user_question) ("requires_viz".data) PyJson.null =
      Except.ok (PyJson.bool false) ∧
    pyDictGet (defaultPlan st.user_question) ("chart_type".data) PyJson.null =
      Except.ok PyJson.null := by
  refine ⟨?_, rfl, rfl, rfl, rfl, rfl⟩
  simp only [plannerNode]
  rw [hp]
  rfl

/-- Witness for C6 with a parser that always fails. -/
theorem claim6_witness :
    plannerNode (fun _ => none) (ModelResp.returns ("not json".data))
        (initState ("q".data) none) =
      Except.ok { plan := some (defaultPlan (initState ("q".data) none).user_question),
                  next_node := some (PyJson.str ("executor".data)) } ∧
    pyDictGet (defaultPlan (initState ("q".data) none).user_question) ("intent".data)
        PyJson.null = Except.ok (PyJson.str ("analysis".data)) ∧
    pyDictGet (defaultPlan (initState ("q".data) none).user_question) ("routing".data)
        PyJson.null = Except.ok (PyJson.str ("executor".data)) ∧
    pyDictGet (defaultPlan (initState ("q".data) none).user_question) ("requires_sql".data)
        PyJson.null = Except.ok (PyJson.bool false) ∧
    pyDictGet (defaultPlan (initState ("q".data) none).user_question) ("requires_viz".data)
        PyJson.null = Except.ok (PyJson.bool false) ∧
    pyDictGet (defaultPlan (initState ("q".data) none).user_question) ("chart_type".data)
        PyJson.null = Except.ok PyJson.null :=
  claim6_planner_default_on_unparseable (fun _ => none) ("not json".data)
    (initState ("q".data) none) rfl

/-- Counterexample to C10 as stated: the response `"42"` has no `<plan>`
tag and is itself valid JSON, but it is not adopted as the returned plan —
`planner_node` raises `AttributeError` when it calls `.get` on the parsed
non-dict value, instead of returning it (or the default plan). -/
theorem claim10_counterexample :
    plannerNode parse42 (ModelResp.returns ("42".data)) (initState ("q".data) none) =
      Except.error ⟨"AttributeError".data, "object has no attribute get".data⟩ := by
  rfl

/-- C10 (amended). When the planner response has no `<plan>` tag pair, the
entire stripped response is handed to the JSON parse; a response parsing
to a JSON object is adopted as the plan and returned; a response parsing
to a non-object JSON value makes `planner_node` raise `AttributeError`
(on `plan.get("routing", ...)`) rather than return it; the fixed default
plan is substituted only when the parse fails. -/
theorem claim10_amended_whole_response_parse :
    (∀ text : Str, extractTagOpt text ("plan".data) = none →
       plannerRawJson text = pyStripL text) ∧
    (∀ (parseJson : Str → Option PyJson) (text : Str) (st : PState)
       (kvs : List (Str × PyJson)),
       parseJson (plannerRawJson text) = some (PyJson.obj kvs) →
       ∃ u, plannerNode parseJson (ModelResp.returns text) st = Except.ok u ∧
         u.plan = some (PyJson.obj kvs)) ∧
    (∀ (parseJson : Str → Option PyJson) (text : Str) (st : PState) (j : PyJson),
       parseJson (plannerRawJson text) = some j → j.isObj = false →
       plannerNode parseJson (ModelResp.returns text) st =
         Except.error ⟨"AttributeError".data, "object has no attribute get".data⟩) ∧
    (∀ (parseJson : Str → Option PyJson) (text : Str) (st : PState),
       parseJson (plannerRawJson text) = none →
       plannerNode parseJson (ModelResp.returns text) st =
         Except.ok { plan := some (defaultPlan st.user_question),
                     next_node := some (PyJson.str ("executor".data)) }) := by
  refine ⟨?_, ?_, ?_, ?_⟩
  · intro text h
    unfold plannerRawJson
    rw [h]
  · intro parseJson text st kvs hp
    simp only [plannerNode]
    rw [hp]
    exact ⟨_, rfl, rfl⟩
  · intro parseJson text st j hp hobj
    simp only [plannerNode]
    rw [hp]
    cases j with
    | obj kvs => simp [PyJson.isObj] at hobj
    | null => rfl
    | bool b => rfl
    | str s2 => rfl
    | num n => rfl
    | arr xs => rfl
  · intro parseJson text st hp
    simp only [plannerNode]
    rw [hp]
    rfl

/-- Witness for the amended C10 at concrete inputs. -/
theorem claim10_witness :
    plannerRawJson ("42".data) = pyStripL ("42".data) ∧
    plannerNode parse42 (ModelResp.returns ("42".data)) (initState ("q".data) none) =
      Except.error ⟨"AttributeError".data, "object has no attribute get".data⟩ ∧
    plannerNode (fun _ => none) (ModelResp.returns ("42".data))
        (initState ("q".data) none) =
      Except.ok { plan := some (defaultPlan ("q".data)),
                  next_node := some (PyJson.str ("executor".data)) } :=
  ⟨claim10_amended_whole_response_parse.1 ("42".data) rfl,
   claim10_amended_whole_response_parse.2.2.1 parse42 ("42".data)
     (initState ("q".data) none) (PyJson.num 42) rfl rfl,
   claim10_amended_whole_response_parse.2.2.2 (fun _ => none) ("42".data)
     (initState ("q".data) none) rfl⟩

/-- C8 (amended). After `analysis_executor_node` runs on a state with a
dataset and a dict plan, the next node is `viz_node` exactly when the
analysis succeeded AND `plan.requires_viz` is truthy; on analysis failure
(and on a missing dataset) the executor routes to `responder` even when
`requires_viz` is true. -/
theorem claim8_amended_routing :
    (∀ (env : Nat → AttemptEnv) (st : PState) (lf : LFModel) (kvs : List (Str × PyJson)),
       st.raw_dataframe = some lf → st.plan = PyJson.obj kvs →
       ∃ u, analysisExecutorNode env st = Except.ok u ∧
         routeAfterExecutor (applyUpdate st u) =
           (if (PolarsAnalyst.analyze st.user_question lf.schema env).1.success &&
               pyTruthy ((assocGet kvs ("requires_viz".data)).getD PyJson.null)
            then ("viz_node".data) else ("responder".data))) ∧
    (∀ (env : Nat → AttemptEnv) (st : PState),
       st.raw_dataframe = none →
       ∃ u, analysisExecutorNode env st = Except.ok u ∧
         routeAfterExecutor (applyUpdate st u) = "responder".data) := by
  constructor
  · intro env st lf kvs hdf hpl
    unfold analysisExecutorNode
    rw [hdf, hpl]
    cases hs : (PolarsAnalyst.analyze st.user_question lf.schema env).1.success with
    | true =>
      simp only [hs, Bool.true_and]
      refine ⟨_, rfl, ?_⟩
      cases ht : pyTruthy ((assocGet kvs ("requires_viz".data)).getD PyJson.null) <;> rfl
    | false =>
      simp only [hs, Bool.false_and]
      exact ⟨_, rfl, rfl⟩
  · intro env st hdf
    unfold analysisExecutorNode
    rw [hdf]
    exact ⟨_, rfl, rfl⟩

/-- Counterexample to C8 as stated: with `plan.requires_viz == true` but a
failing analysis, the node executed after the executor is `responder`,
not `viz_node` as the transition table row demands. -/
theorem claim8_counterexample :
    pyTruthy ((assocGet [("requires_viz".data, PyJson.bool true)] ("requires_viz".data)).getD
      PyJson.null) = true ∧
    isOkE (analysisExecutorNode envAllFail stVizPlan) = true ∧
    routeAfterExecutor (applyUpdate stVizPlan (updOfE (analysisExecutorNode envAllFail stVizPlan))) =
      "responder".data := by
  exact ⟨rfl, rfl, rfl⟩

/-- Witness for the amended C8: a succeeding analysis with
`requires_viz = true` routes to `viz_node`. -/
theorem claim8_witness :
    (∃ u, analysisExecutorNode envSecondOk stVizPlan = Except.ok u ∧
       routeAfterExecutor (applyUpdate stVizPlan u) =
         (if (PolarsAnalyst.analyze stVizPlan.user_question
                [("a".data, "Int64".data)] envSecondOk).1.success &&
             pyTruthy ((assocGet [("requires_viz".data, PyJson.bool true)]
               ("requires_viz".data)).getD PyJson.null)
          then ("viz_node".data) else ("responder".data))) ∧
    (∃ u, analysisExecutorNode envAllFail (initState ("q".data) none) = Except.ok u ∧
       routeAfterExecutor (applyUpdate (initState ("q".data) none) u) = "responder".data) :=
  ⟨claim8_amended_routing.1 envSecondOk stVizPlan
     ⟨[("a".data, "Int64".data)], ⟨"DataFrame".data, true, false⟩⟩
     [("requires_viz".data, PyJson.bool true)] rfl rfl,
   claim8_amended_routing.2 envAllFail (initState ("q".data) none) rfl⟩

lemma responderNode_returns (env : ResponderEnv) (st : PState) (text : Str)
    (hr : env.resp = ModelResp.returns text) :
    responderNode env st =
      Except.ok { final_answer := some text,
                  next_node := some (PyJson.str ("end".data)) } := by
  unfold responderNode
  rw [hr]

lemma analysisExecutorNode_ok (env : Nat → AttemptEnv) (st : PState)
    (kvs : List (Str × PyJson)) (hpl : st.plan = PyJson.obj kvs) :
    ∃ u, analysisExecutorNode env st = Except.ok u ∧ u.plan = none := by
  unfold analysisExecutorNode
  cases hdf : st.raw_dataframe with
  | none => exact ⟨_, rfl, rfl⟩
  | some lf =>
    rw [hpl]
    dsimp only
    simp only [pyDictGet]
    split
    · exact ⟨_, rfl, rfl⟩
    · exact ⟨_, rfl, rfl⟩

lemma vizExecutorNode_ok (env : VizNodeEnv) (st : PState)
    (kvs : List (Str × PyJson)) (hpl : st.plan = PyJson.obj kvs) :
    ∃ u, vizExecutorNode env st = Except.ok u ∧ u.plan = none := by
  unfold vizExecutorNode
  rw [hpl]
  cases har : st.analysis_result with
  | some df =>
    dsimp only
    simp only [pyDictGet]
    split <;> (try split) <;> exact ⟨_, rfl, rfl⟩
  | none =>
    cases hdf : st.raw_dataframe with
    | none => exact ⟨_, rfl, rfl⟩
    | some lf =>
      dsimp only
      simp only [pyDictGet]
      split <;> (try split) <;> exact ⟨_, rfl, rfl⟩

lemma sqlExecutorNode_plan (env : SqlEnv) (st : PState) :
    (sqlExecutorNode env st).plan = none := by
  unfold sqlExecutorNode
  cases hdf : st.raw_dataframe with
  | none => rfl
  | some lf =>
    dsimp only
    split <;> rfl

lemma applyUpdate_plan_none (st : PState) (u : PUpdate) (h : u.plan = none) :
    (applyUpdate st u).plan = st.plan := by
  unfold applyUpdate
  rw [h]
  rfl

lemma runAfterPlanner_ok (env : PipelineEnv) (st1 : PState)
    (kvs : List (Str × PyJson)) (hpl : st1.plan = PyJson.obj kvs) :
    ∃ stPre, runAfterPlanner env st1 = Except.ok stPre := by
  unfold runAfterPlanner
  by_cases h1 : routeAfterPlanner st1 = "executor".data
  · rw [if_pos h1]
    obtain ⟨u2, h2, h2p⟩ := analysisExecutorNode_ok env.analysisAttempts st1 kvs hpl
    rw [h2]
    dsimp only
    have hst2 : (applyUpdate st1 u2).plan = PyJson.obj kvs := by
      rw [applyUpdate_plan_none st1 u2 h2p, hpl]
    by_cases hv : routeAfterExecutor (applyUpdate st1 u2) = "viz_node".data
    · rw [if_pos hv]
      obtain ⟨u3, h3, _⟩ := vizExecutorNode_ok env.viz (applyUpdate st1 u2) kvs hst2
      rw [h3]
      exact ⟨_, rfl⟩
    · rw [if_neg hv]
      exact ⟨_, rfl⟩
  · rw [if_neg h1]
    by_cases h2 : routeAfterPlanner st1 = "sql_node".data
    · rw [if_pos h2]
      exact ⟨_, rfl⟩
    · rw [if_neg h2]
      by_cases h3 : routeAfterPlanner st1 = "viz_node".data
      · rw [if_pos h3]
        obtain ⟨u3, hviz, _⟩ := vizExecutorNode_ok env.viz st1 kvs hpl
        rw [hviz]
        exact ⟨_, rfl⟩
      · rw [if_neg h3]
        exact ⟨_, rfl⟩

lemma plannerNode_ok_obj (parseJson : Str → Option PyJson) (text : Str) (st : PState)
    (hj : ∀ j, parseJson (plannerRawJson text) = some j → j.isObj = true) :
    ∃ kvs u, plannerNode parseJson (ModelResp.returns text) st = Except.ok u ∧
      u.plan = some (PyJson.obj kvs) := by
  simp only [plannerNode]
  cases hp : parseJson (plannerRawJson text) with
  | none => exact ⟨_, _, rfl, rfl⟩
  | some j =>
    have hobj := hj j hp
    cases j with
    | obj kvs => exact ⟨kvs, _, rfl, rfl⟩
    | null => simp [PyJson.isObj] at hobj
    | bool b => simp [PyJson.isObj] at hobj
    | str s2 => simp [PyJson.isObj] at hobj
    | num n => simp [PyJson.isObj] at hobj
    | arr xs => simp [PyJson.isObj] at hobj

/-- Counterexample to C5 as stated: when the model call of the planner itself
raises, `planner_node` does not return a partial state update — the
exception escapes and the whole pipeline raises, and the responder never
runs. -/
theorem claim5_counterexample :
    runPipeline (fun _ => none) pipeEnvPlannerCrash (initState ("q".data) none) =
      Except.error ⟨"ReadTimeout".data, "model unavailable".data⟩ := by
  rfl

/-- C5 (amended). Provided the model invocations of `planner_node` and
`responder_node` return (and the parsed planner plan, when the parse
succeeds, is a JSON object), no failure of any tool crashes the pipeline:
every node returns a well-formed partial update, the responder runs last,
and the final state carries its answer text — whatever the analysis, SQL
or viz components did. -/
theorem claim5_amended_no_crash (parseJson : Str → Option PyJson)
    (env : PipelineEnv) (st0 : PState) (ptext rtext : Str)
    (hp : env.plannerResp = ModelResp.returns ptext)
    (hr : env.responder.resp = ModelResp.returns rtext)
    (hj : ∀ j, parseJson (plannerRawJson ptext) = some j → j.isObj = true) :
    ∃ stF, runPipeline parseJson env st0 = Except.ok stF ∧
      stF.final_answer = rtext ∧ stF.next_node = PyJson.str ("end".data) := by
  obtain ⟨kvs, u1, hpl, hup⟩ := plannerNode_ok_obj parseJson ptext st0 hj
  unfold runPipeline
  rw [hp, hpl]
  dsimp only
  have hst1 : (applyUpdate st0 u1).plan = PyJson.obj kvs := by
    unfold applyUpdate
    rw [hup]
    rfl
  obtain ⟨stPre, hafter⟩ := runAfterPlanner_ok env (applyUpdate st0 u1) kvs hst1
  rw [hafter]
  dsimp only
  rw [responderNode_returns env.responder stPre rtext hr]
  exact ⟨_, rfl, rfl, rfl⟩

/-- Witness for the amended C5: with every tool failing but the planner
and responder models answering, the pipeline completes with the
responder text. -/
theorem claim5_witness :
    ∃ stF, runPipeline (fun _ => none) pipeEnvToolsFail (initState ("q".data) none) =
        Except.ok stF ∧
      stF.final_answer = "answer".data ∧ stF.next_node = PyJson.str ("end".data) :=
  claim5_amended_no_crash (fun _ => none) pipeEnvToolsFail (initState ("q".data) none)
    ("no plan here".data) ("answer".data) rfl rfl
    (fun _ h => Option.noConfusion h)

lemma infix_pyStrip_mid (A M B e : Str) (hA : ∃ x ∈ A, isPyWs x = false)
    (hB : ∃ x ∈ B, isPyWs x = false) (he : e <:+: M) :
    e <:+: pyStripL (A ++ M ++ B) := by
  rw [pyStripL_append_middle A M B hA hB]
  exact infix_of_infix_middle _ _ _ e he

/-- C2 (amended). In both retry loops, at the moment the prompt of attempt
`m` is constructed the error history holds exactly `m - 1` entries — entry
`i` being precisely the captured failure (attempt number, exception kind,
message, traceback) of earlier attempt `i` — and the history only grows by
appending one entry per failed attempt. Every entry is contained verbatim
in the viz prompt unconditionally; an entry is contained verbatim in the
analysis prompt provided the `textwrap.dedent` pass leaves the joined
error-history block intact and bordered by non-whitespace text (dedent's
whitespace-only-line blanking can rewrite an entry that contains such a
line — see the counterexample). -/
theorem claim2_amended_error_history :
    (∀ (R : Nat) (q s : Str) (env : Nat → AttemptEnv) (m : Nat),
       1 ≤ m → m ≤ R + 1 →
       (∀ i, 1 ≤ i → i < m → stepFails (env i) = true) →
       ((analyzeRun env R q s).2.1)[m - 1]? =
         some ⟨m, decide (m > R), pHistSegA env 1 (m - 1),
               buildPrompt q s (pHistSegA env 1 (m - 1))⟩ ∧
       (pHistSegA env 1 (m - 1)).length = m - 1 ∧
       pHistSegA env 1 m = pHistSegA env 1 (m - 1) ++
         [mkErrorMsg m (stepExc (env m)).kind (stepExc (env m)).msg (env m).tb]) ∧
    (∀ (R : Nat) (bp : Str) (env : Nat → AttemptEnv) (m : Nat),
       1 ≤ m → m ≤ R + 1 →
       (∀ i, 1 ≤ i → i < m → vStepFails (env i) = true) →
       ((vizRun env R bp).2.1)[m - 1]? =
         some ⟨m, decide (m > R), pHistSegV env 1 (m - 1),
               vizPrompt bp (pHistSegV env 1 (m - 1))⟩ ∧
       (pHistSegV env 1 (m - 1)).length = m - 1 ∧
       pHistSegV env 1 m = pHistSegV env 1 (m - 1) ++
         [mkVizErrorMsg m (vStepExc (env m)).kind (vStepExc (env m)).msg (env m).tb]) ∧
    (∀ (bp : Str) (hist : List Str) (e : Str), e ∈ hist → e <:+: vizPrompt bp hist) ∧
    (∀ (q s : Str) (hist : List Str) (e A' B' : Str), e ∈ hist →
       pyDedentL (errsPromptText (pyStripL (pyDedentL (basePromptText q s)))
           (List.intercalate ("\n\n---\n".data) hist)) =
         A' ++ List.intercalate ("\n\n---\n".data) hist ++ B' →
       (∃ x ∈ A', isPyWs x = false) → (∃ x ∈ B', isPyWs x = false) →
       e <:+: buildPrompt q s hist) := by
  refine ⟨?_, ?_, ?_, ?_⟩
  · intro R q s env m hm1 hm2 hf
    refine ⟨?_, pHistSegA_length env 1 (m - 1), ?_⟩
    · have h := analyzeGo_trace_get env R q s (R + 1) 1 [] [] m (by omega) hm1 hm2 hf
      simpa using h
    · have h := pHistSegA_concat env 1 (m - 1)
      rw [show m - 1 + 1 = m by omega, show 1 + (m - 1) = m by omega] at h
      exact h
  · intro R bp env m hm1 hm2 hf
    refine ⟨?_, pHistSegV_length env 1 (m - 1), ?_⟩
    · have h := vizGo_trace_get env R bp (R + 1) 1 [] [] m (by omega) hm1 hm2 hf
      simpa using h
    · have h := pHistSegV_concat env 1 (m - 1)
      rw [show m - 1 + 1 = m by omega, show 1 + (m - 1) = m by omega] at h
      exact h
  · intro bp hist e he
    have hne : hist ≠ [] := by
      intro h; subst h; cases he
    unfold vizPrompt
    rw [if_neg hne]
    exact (infix_intercalate _ hist e he).trans (infixOfSfx (List.suffix_append _ _))
  · intro q s hist e A' B' he hde hA hB
    have hne : hist ≠ [] := by
      intro h; subst h; cases he
    unfold buildPrompt
    dsimp only
    rw [if_neg hne, hde]
    exact infix_pyStrip_mid _ _ _ e hA hB (infix_intercalate _ hist e he)

lemma isSubstr_iff (p t : Str) : isSubstr p t = true ↔ p <:+: t := by
  induction t with
  | nil => simp [isSubstr, List.isEmpty_iff, List.infix_nil]
  | cons c rest ih =>
    simp only [isSubstr, Bool.or_eq_true, ih, List.infix_cons_iff,
      List.isPrefixOf_iff_prefix]

set_option maxRecDepth 40000 in
/-- Counterexample to C2 as stated: after attempt 1 fails with a traceback
containing a whitespace-only line, the error history before attempt 2
holds exactly that captured failure, but the entry is NOT contained
verbatim in the prompt of attempt 2 — `textwrap.dedent` blanks the
whitespace-only line inside the entry. -/
theorem claim2_counterexample :
    (((PolarsAnalyst.analyze ("q".data) [("a".data, "Int64".data)] envWsTraceback).2.1)[1]?).map
        TraceEntry.history_at_prompt =
      some [mkErrorMsg 1 ("ValueError".data) ("m".data) ("x\n   \ny".data)] ∧
    ¬ mkErrorMsg 1 ("ValueError".data) ("m".data) ("x\n   \ny".data) <:+:
      ((((PolarsAnalyst.analyze ("q".data) [("a".data, "Int64".data)] envWsTraceback).2.1)[1]?).map
        TraceEntry.prompt).getD [] := by
  refine ⟨rfl, ?_⟩
  intro hinf
  have hb := (isSubstr_iff _ _).mpr hinf
  have hf : isSubstr (mkErrorMsg 1 ("ValueError".data) ("m".data) ("x\n   \ny".data))
      (((((PolarsAnalyst.analyze ("q".data) [("a".data, "Int64".data)] envWsTraceback).2.1)[1]?).map
        TraceEntry.prompt).getD []) = false := by
    rfl
  rw [hf] at hb
  simp at hb

set_option maxRecDepth 40000 in
/-- Witness for the amended C2 at concrete inputs: attempt 2 of an
all-failing run sees a one-entry history, and a concrete entry with no
whitespace-only lines is contained verbatim in both prompts. -/
theorem claim2_witness :
    (((analyzeRun envAllFail 3 ("q".data) ("s".data)).2.1)[2 - 1]? =
       some ⟨2, decide (2 > 3), pHistSegA envAllFail 1 (2 - 1),
             buildPrompt ("q".data) ("s".data) (pHistSegA envAllFail 1 (2 - 1))⟩ ∧
     (pHistSegA envAllFail 1 (2 - 1)).length = 2 - 1 ∧
     pHistSegA envAllFail 1 2 = pHistSegA envAllFail 1 (2 - 1) ++
       [mkErrorMsg 2 (stepExc (envAllFail 2)).kind (stepExc (envAllFail 2)).msg
         (envAllFail 2).tb]) ∧
    (((vizRun envAllFail 3 ("bp".data)).2.1)[2 - 1]? =
       some ⟨2, decide (2 > 3), pHistSegV envAllFail 1 (2 - 1),
             vizPrompt ("bp".data) (pHistSegV envAllFail 1 (2 - 1))⟩ ∧
     (pHistSegV envAllFail 1 (2 - 1)).length = 2 - 1 ∧
     pHistSegV envAllFail 1 2 = pHistSegV envAllFail 1 (2 - 1) ++
       [mkVizErrorMsg 2 (vStepExc (envAllFail 2)).kind (vStepExc (envAllFail 2)).msg
         (envAllFail 2).tb]) ∧
    ("e1".data <:+: vizPrompt ("bp".data) ["e1".data]) ∧
    ("Attempt 1 failed.\nError type: E\nError message: m\nTraceback:\ntb".data <:+:
       buildPrompt ("q".data) ("Dataset columns:\n  - a: Int64".data)
         ["Attempt 1 failed.\nError type: E\nError message: m\nTraceback:\ntb".data]) :=
  ⟨claim2_amended_error_history.1 3 ("q".data) ("s".data) envAllFail 2
     (by omega) (by omega) (fun _ _ _ => rfl),
   claim2_amended_error_history.2.1 3 ("bp".data) envAllFail 2
     (by omega) (by omega) (fun _ _ _ => rfl),
   claim2_amended_error_history.2.2.1 ("bp".data) ["e1".data] ("e1".data)
     (List.mem_singleton.mpr rfl),
   claim2_amended_error_history.2.2.2 ("q".data) ("Dataset columns:\n  - a: Int64".data)
     ["Attempt 1 failed.\nError type: E\nError message: m\nTraceback:\ntb".data]
     ("Attempt 1 failed.\nError type: E\nError message: m\nTraceback:\ntb".data)
     ("\n            ".data ++
        pyStripL (pyDedentL (basePromptText ("q".data) ("Dataset columns:\n  - a: Int64".data))) ++
        "\n\n            YOUR PREVIOUS CODE FAILED. Study these errors and fix them:\n\n            ".data)
     ("\n\n            Write corrected code now. Pay attention to:\n            - group_by() not groupby()\n            - .alias() for renaming columns\n            - .collect() at the end\n            - Correct column names from the schema above\n".data)
     (List.mem_singleton.mpr rfl) rfl
     ⟨'Y', List.mem_append.mpr (Or.inr (by decide)), by decide⟩
     ⟨'W', by decide, by decide⟩⟩
